import Mathlib

/-! Mind Haven backend: authentication, authorization and the doctor directory.

A shallow embedding of `src/middleware/auth.js`, `src/routes/auth.js` and
`src/routes/doctors.js`, with the schema of `src/models/Doctor.js`.

* Request handlers become pure functions from the request and the store to a
  result record holding the response, the store afterwards and the ordered
  list of calls made to the token service and to the credential store.
* The credential store (MongoDB behind Mongoose) is a pair of lists of
  documents; unique indexes are checked on insertion.
* `utils/jwt` and `models/User` are not part of the sources at hand: their
  functions are fields of `Lib`, supplied by the caller.
-/

namespace MindHaven

/-! ## Values -/

/-- JavaScript values that a parsed JSON body (or a missing key) can hand to a
handler. Objects and arrays are not inspected by the handlers, only tested for
truthiness, so they are one constructor; a number is given by an integer,
which is enough to tell zero from the truthy numbers. -/
inductive JsVal where
  | undefined
  | null
  | bool (b : Bool)
  | num (n : Int)
  | str (s : String)
  | obj
  deriving DecidableEq, Repr

/-- JavaScript truthiness, the meaning of `!v` being false. -/
def JsVal.truthy : JsVal → Bool
  | .undefined => false
  | .null => false
  | .bool b => b
  | .num n => n != 0
  | .str s => s != ""
  | .obj => true

/-- Document ids (`ObjectId`). -/
abbrev ObjectId := Nat

/-- ASCII model of `String.prototype.toLowerCase`. -/
def toLowerCase (s : String) : String := ⟨s.data.map Char.toLower⟩

/-- Model of `s.startsWith(p)`. -/
def startsWith (s p : String) : Bool := p.data.isPrefixOf s.data

/-- Model of `s.split(' ')` on the characters of `s`: the pieces between single
spaces, empty pieces included; the empty string yields one empty piece. -/
def splitSpace : List Char → List (List Char)
  | [] => [[]]
  | c :: cs =>
    if c = ' ' then [] :: splitSpace cs
    else
      match splitSpace cs with
      | [] => [[c]]
      | w :: ws => (c :: w) :: ws

/-- Model of `s.split(' ')`. -/
def jsSplit (s : String) : List String := (splitSpace s.data).map String.mk

/-! ## Documents -/

/-- A `User` document. `password` is `none` when the read excluded the field
(`select('-password')`, the default projection). -/
structure User where
  _id : ObjectId
  email : String
  password : Option String
  name : JsVal
  userType : String
  phone : JsVal
  address : JsVal
  dateOfBirth : Option JsVal
  gender : JsVal
  profileImage : JsVal
  isActive : Bool
  isEmailVerified : Bool
  createdAt : Nat
  updatedAt : Nat
  deriving DecidableEq, Repr

/-- One entry of `availableSlots` in `models/Doctor.js`. -/
structure Slot where
  day : String
  startTime : String
  endTime : String
  deriving DecidableEq, Repr

/-- A `Doctor` document, field for field as in `models/Doctor.js`. -/
structure Doctor where
  _id : ObjectId
  userId : ObjectId
  specialization : String
  licenseNumber : String
  qualification : List String
  experience : Int
  consultationFee : Int
  availableSlots : List Slot
  rating : Rat
  totalReviews : Int
  bio : String
  services : List String
  isVerified : Bool
  verificationDocuments : List String
  createdAt : Nat
  updatedAt : Nat
  deriving DecidableEq, Repr

/-- The credential store: the `users` and `doctors` collections. -/
structure Store where
  users : List User
  doctors : List Doctor
  deriving DecidableEq, Repr

/-- The payload of a session token, as signed in `routes/auth.js`. -/
structure Claims where
  userId : ObjectId
  email : String
  userType : String
  deriving DecidableEq, Repr

/-! ## Responses, requests and results -/

/-- The projection of a doctor profile placed in login and `/auth/me`
responses; `availableSlots` and `services` appear in `/auth/me` only. -/
structure DoctorView where
  _id : ObjectId
  specialization : String
  licenseNumber : String
  qualification : List String
  experience : Int
  consultationFee : Int
  availableSlots : Option (List Slot)
  rating : Rat
  totalReviews : Int
  bio : String
  services : Option (List String)
  isVerified : Bool
  deriving DecidableEq, Repr

/-- The `userResponse` object literal of `routes/auth.js`. `updatedAt` is set
by `/auth/me` only; `doctorProfile` is `none` when the key is absent (signup),
`some none` when it is `null`. -/
structure UserResponse where
  _id : ObjectId
  email : String
  name : JsVal
  userType : String
  phone : JsVal
  address : JsVal
  dateOfBirth : Option JsVal
  gender : JsVal
  profileImage : JsVal
  isActive : Bool
  isEmailVerified : Bool
  createdAt : Nat
  updatedAt : Option Nat
  doctorProfile : Option (Option DoctorView)
  deriving DecidableEq, Repr

/-- The fields `name email phone profileImage` that `populate('userId', ...)`
puts in place of the `userId` of a doctor, with the `_id` of the identity. -/
structure PopulatedUser where
  _id : ObjectId
  name : JsVal
  email : String
  phone : JsVal
  profileImage : JsVal
  deriving DecidableEq, Repr

/-- A doctor document after `populate('userId', ...)`: `userId` is the
populated identity, or `null` when no identity has that id. -/
structure ListedDoctor where
  doctor : Doctor
  userId : Option PopulatedUser
  deriving DecidableEq, Repr

/-- The `pagination` object of `GET /api/doctors`. A field is `none` where
JavaScript computes `NaN` or an infinity, which JSON writes as `null`. -/
structure Pagination where
  page : Option Int
  limit : Option Int
  total : Nat
  pages : Option Int
  deriving DecidableEq, Repr

/-- The `data` member of a response body. -/
inductive ResData where
  | none
  | auth (user : UserResponse) (token : String)
  | user (user : UserResponse)
  | doctor (doctor : Doctor)
  | doctors (doctors : List ListedDoctor) (pagination : Pagination)
  deriving DecidableEq, Repr

/-- An HTTP response: `res.status(status).json({success, message, error, data})`. -/
structure Response where
  status : Nat
  success : Bool
  message : Option String
  error : Option String
  data : ResData
  deriving DecidableEq, Repr

/-- The body `{success: false, message}` sent with `status`. -/
def fail (status : Nat) (message : String) : Response :=
  { status := status, success := false, message := some message, error := none, data := .none }

/-- The fields of `req.body` read by the signup and login handlers. -/
structure Body where
  email : JsVal
  password : JsVal
  name : JsVal
  userType : JsVal
  phone : JsVal
  address : JsVal
  dateOfBirth : JsVal
  gender : JsVal
  deriving DecidableEq, Repr

/-- The parts of an Express request the handlers read: the `Authorization`
header, `req.user` as attached by the auth gate, and the body. -/
structure Request where
  authorization : Option String
  user : Option User
  body : Body
  deriving DecidableEq, Repr

/-- Calls made to the token service and to the credential store, in order. -/
inductive Call where
  | verifyToken (token : String)
  | generateToken (claims : Claims)
  | userFindById (id : ObjectId)
  | userFindOne (email : String)
  | userCreate (email : String)
  | doctorCreate (userId : ObjectId)
  | doctorFindOne (userId : ObjectId)
  | comparePassword (userId : ObjectId)
  | doctorSave (id : ObjectId)
  | doctorFind
  | doctorCount
  deriving DecidableEq, Repr

/-- What a middleware did: the request object afterwards, the response it
sent (if any), how often it called `next`, and the calls it made. -/
structure MwResult where
  req : Request
  res : Option Response
  nextCalls : Nat
  calls : List Call
  deriving DecidableEq, Repr

/-- The input document of `User.create` in the signup handler. -/
structure NewUser where
  email : String
  password : JsVal
  name : JsVal
  userType : String
  phone : JsVal
  address : JsVal
  dateOfBirth : Option JsVal
  gender : JsVal
  deriving DecidableEq, Repr

/-- The functions of the modules that are required by the sources but are not
among them: `utils/jwt` (`verifyToken`, `generateToken`) and `models/User`
(schema validation messages, the password hashing hook, `comparePassword`,
the default of `profileImage`). -/
structure Lib where
  verifyToken : String → Option Claims
  generateToken : Claims → String
  userSchemaErrors : NewUser → List String
  hashPassword : JsVal → String
  comparePassword : JsVal → String → Bool
  defaultProfileImage : JsVal

/-! ## Store operations -/

/-- Reading a user with the default projection: the password is excluded. -/
def User.withoutPassword (u : User) : User := { u with password := none }

/-- `User.findById(id).select('-password')`. -/
def Store.findUserById (s : Store) (id : ObjectId) : Option User :=
  (s.users.find? (fun u => u._id == id)).map User.withoutPassword

/-- `User.findOne({ email })` with the default projection. -/
def Store.findUserByEmail (s : Store) (email : String) : Option User :=
  (s.users.find? (fun u => u.email == email)).map User.withoutPassword

/-! ## The auth gate (`middleware/auth.js`) -/

/-- Lines 6-11 of `protect`: the token taken from the `Authorization` header,
`none` standing for `undefined`. -/
def extractToken (authorization : Option String) : Option String :=
  match authorization with
  | none => none
  | some h =>
    if h ≠ "" ∧ startsWith h "Bearer" then (jsSplit h)[1]? else none

/-- The condition `!token` of line 13 is false: a token is there and is not
the empty string. -/
def tokenPresent : Option String → Option String
  | some t => if t = "" then none else some t
  | none => none

/-- The middleware `protect`. The `catch` branch (401 'Not authorized to access
this route') answers exceptions thrown by the token service or the database
driver; a `Lib.verifyToken` returns `null` instead of throwing and a lookup in
a `Store` cannot throw, so the branch has no counterpart here. -/
def protect (lib : Lib) (store : Store) (req : Request) : MwResult :=
  match tokenPresent (extractToken req.authorization) with
  | none =>
    { req := req, nextCalls := 0, calls := [],
      res := some (fail 401 "Not authorized to access this route. No token provided.") }
  | some token =>
    match lib.verifyToken token with
    | none =>
      { req := req, nextCalls := 0, calls := [.verifyToken token],
        res := some (fail 401 "Invalid or expired token") }
    | some decoded =>
      match store.findUserById decoded.userId with
      | none =>
        { req := req, nextCalls := 0,
          calls := [.verifyToken token, .userFindById decoded.userId],
          res := some (fail 404 "User not found") }
      | some user =>
        if !user.isActive then
          { req := req, nextCalls := 0,
            calls := [.verifyToken token, .userFindById decoded.userId],
            res := some (fail 403 "Your account has been deactivated") }
        else
          { req := { req with user := some user }, nextCalls := 1,
            calls := [.verifyToken token, .userFindById decoded.userId],
            res := none }

/-- The middleware `authorizeDoctor`. -/
def authorizeDoctor (req : Request) : MwResult :=
  match req.user with
  | some u =>
    if u.userType = "doctor" then
      { req := req, res := none, nextCalls := 1, calls := [] }
    else
      { req := req, nextCalls := 0, calls := [],
        res := some (fail 403 "Access denied. Only doctors can access this route.") }
  | none =>
    { req := req, nextCalls := 0, calls := [],
      res := some (fail 403 "Access denied. Only doctors can access this route.") }

/-- The middleware `authorizeUser` (the patient gate). -/
def authorizeUser (req : Request) : MwResult :=
  match req.user with
  | some u =>
    if u.userType = "user" then
      { req := req, res := none, nextCalls := 1, calls := [] }
    else
      { req := req, nextCalls := 0, calls := [],
        res := some (fail 403 "Access denied. Only patients can access this route.") }
  | none =>
    { req := req, nextCalls := 0, calls := [],
      res := some (fail 403 "Access denied. Only patients can access this route.") }

/-- Express dispatch of `router.METHOD(path, first, second, ...)`: `second`
runs on the request left by `first` exactly when `first` called `next`. -/
def chain (first : MwResult) (second : Request → MwResult) : MwResult :=
  if first.nextCalls = 0 then first
  else
    let r := second first.req
    { r with calls := first.calls ++ r.calls }

/-- The guard of the doctor-only routes of `routes/doctors.js`:
`protect, authorizeDoctor`. -/
def doctorOnly (lib : Lib) (store : Store) (req : Request) : MwResult :=
  chain (protect lib store req) authorizeDoctor

/-! ## Signup (`routes/auth.js`) -/

/-- Exceptions reaching the `catch` of a handler: a Mongoose `ValidationError`
with the messages of its `errors`, a duplicate-key error of a unique index
(`MongoServerError` E11000), a `TypeError`, or another error of the database
driver or server. -/
inductive Thrown where
  | validationError (messages : List String)
  | duplicateKey (index : String)
  | typeError (message : String)
  | driver (message : String)
  deriving DecidableEq, Repr

/-- The `error.message` of an exception (for E11000 the text of the driver is
shortened to the name of the index). -/
def Thrown.message : Thrown → String
  | .validationError messages => "Validation failed: " ++ ", ".intercalate messages
  | .duplicateKey index => "E11000 duplicate key error index: " ++ index
  | .typeError message => message
  | .driver message => message

/-- What a route handler did: the store afterwards, the response, the calls. -/
structure HandlerResult where
  store : Store
  res : Response
  calls : List Call
  deriving DecidableEq, Repr

/-- Modelled from the spec: the document `User.create` stores for `doc`. The
password goes through the hashing hook; a new identity is active and its
email is not verified. -/
def newUser (lib : Lib) (now : Nat) (id : ObjectId) (doc : NewUser) : User :=
  { _id := id, email := doc.email, password := some (lib.hashPassword doc.password),
    name := doc.name, userType := doc.userType, phone := doc.phone,
    address := doc.address, dateOfBirth := doc.dateOfBirth, gender := doc.gender,
    profileImage := lib.defaultProfileImage, isActive := true, isEmailVerified := false,
    createdAt := now, updatedAt := now }

/-- Modelled from the spec: `User.create` of `models/User`, which is not among
the sources. The schema validators are `Lib.userSchemaErrors`; `email` carries
a unique index (re-created in `fix-indexes.js`), as does `_id`. `id` is the
`ObjectId` the driver generates, `now` the clock. -/
def Store.createUser (lib : Lib) (now : Nat) (id : ObjectId) (s : Store) (doc : NewUser) :
    Except Thrown (User × Store) :=
  if lib.userSchemaErrors doc ≠ [] then .error (.validationError (lib.userSchemaErrors doc))
  else if s.users.any (fun u => u._id == id) then .error (.duplicateKey "_id_")
  else if s.users.any (fun u => u.email == doc.email) then .error (.duplicateKey "email_1")
  else .ok (newUser lib now id doc, { s with users := s.users ++ [newUser lib now id doc] })

/-- The validators of `models/Doctor.js`: `required` on the two strings, `min`
on experience and fee, `min`/`max` on rating, `maxlength` on bio, `enum` on the
day of a slot. Where the schema gives a message it is used; for the day and the
rating, which have none, a short text stands for the default of Mongoose.
(`required` on the numbers and on the array cannot fail on a `Doctor` value.) -/
def doctorSchemaErrors (d : Doctor) : List String :=
  (if d.specialization = "" then ["Specialization is required"] else []) ++
  (if d.licenseNumber = "" then ["License number is required"] else []) ++
  (if d.experience < 0 then ["Experience cannot be negative"] else []) ++
  (if d.consultationFee < 0 then ["Consultation fee cannot be negative"] else []) ++
  (if d.availableSlots.all (fun sl =>
      ["Monday", "Tuesday", "Wednesday", "Thursday", "Friday", "Saturday", "Sunday"].contains
        sl.day) then [] else ["day is not a valid enum value"]) ++
  (if d.rating < 0 then ["rating is less than minimum allowed value (0)"] else []) ++
  (if 5 < d.rating then ["rating is more than maximum allowed value (5)"] else []) ++
  (if 1000 < d.bio.length then ["Bio cannot exceed 1000 characters"] else [])

/-- Saving a new `Doctor` document: schema validation, then the unique indexes
on `_id`, `userId` and `licenseNumber` (`unique: true` in `models/Doctor.js`,
re-created in `fix-indexes.js`), then insertion. The `trim` setters are left
out: they do not change the strings the signup handler writes. -/
def Store.insertDoctor (s : Store) (d : Doctor) : Except Thrown Store :=
  if doctorSchemaErrors d ≠ [] then .error (.validationError (doctorSchemaErrors d))
  else if s.doctors.any (fun x => x._id == d._id) then .error (.duplicateKey "_id_")
  else if s.doctors.any (fun x => x.userId == d.userId) then .error (.duplicateKey "userId_1")
  else if s.doctors.any (fun x => x.licenseNumber == d.licenseNumber) then
    .error (.duplicateKey "licenseNumber_1")
  else .ok { s with doctors := s.doctors ++ [d] }

/-- The document of `Doctor.create` in the signup handler (lines 53-63), with
the schema defaults for the fields the handler does not give. `id` is the
`ObjectId` the driver generates, `now` is `Date.now()`. -/
def placeholderDoctor (now : Nat) (id userId : ObjectId) : Doctor :=
  { _id := id, userId := userId, specialization := "General",
    licenseNumber := "TEMP-" ++ toString now, qualification := ["To be updated"],
    experience := 0, consultationFee := 0, availableSlots := [], rating := 0,
    totalReviews := 0, bio := "", services := [], isVerified := false,
    verificationDocuments := [], createdAt := now, updatedAt := now }

/-- The `catch` of the signup handler (lines 97-114). -/
def signupCatch (e : Thrown) : Response :=
  match e with
  | .validationError messages => fail 400 (", ".intercalate messages)
  | e =>
    { status := 500, success := false, message := some "Internal server error",
      error := some e.message, data := .none }

/-- The `userResponse` literal of the signup handler (lines 74-87). -/
def signupUserResponse (user : User) : UserResponse :=
  { _id := user._id, email := user.email, name := user.name, userType := user.userType,
    phone := user.phone, address := user.address, dateOfBirth := user.dateOfBirth,
    gender := user.gender, profileImage := user.profileImage, isActive := user.isActive,
    isEmailVerified := user.isEmailVerified, createdAt := user.createdAt,
    updatedAt := none, doctorProfile := none }

/-- Lines 66-96 of the signup handler: the token and the 201 response. -/
def signupSuccess (lib : Lib) (user : User) : Response :=
  { status := 201, success := true, message := some "User registered successfully",
    error := none,
    data := .auth (signupUserResponse user)
      (lib.generateToken
        { userId := user._id, email := user.email, userType := user.userType }) }

/-- The object passed to `User.create` by the signup handler (lines 40-49). -/
def signupDocument (body : Body) (email userType : String) : NewUser :=
  { email := toLowerCase email, password := body.password, name := body.name,
    userType := userType, phone := body.phone, address := body.address,
    dateOfBirth := if body.dateOfBirth.truthy then some body.dateOfBirth else none,
    gender := body.gender }

/-- The handler of `POST /api/auth/signup`. `now` is the clock, `uid` and `did`
are the ids the driver generates for the new `User` and `Doctor` documents.
`['user', 'doctor'].includes(userType)` holds of the two strings only;
`email.toLowerCase()` throws a `TypeError` on a truthy value that is not a
string. -/
def signup (lib : Lib) (now : Nat) (uid did : ObjectId) (store : Store) (body : Body) :
    HandlerResult :=
  if !body.email.truthy || !body.password.truthy || !body.name.truthy ||
      !body.userType.truthy then
    { store := store, calls := [],
      res := fail 400 "Please provide all required fields: email, password, name, userType" }
  else
    match body.userType with
    | .str userType =>
      if userType = "user" ∨ userType = "doctor" then
        match body.email with
        | .str email =>
          match store.findUserByEmail (toLowerCase email) with
          | some _ =>
            { store := store, calls := [.userFindOne (toLowerCase email)],
              res := fail 409 "User with this email already exists" }
          | none =>
            match store.createUser lib now uid (signupDocument body email userType) with
            | .error e =>
              { store := store, res := signupCatch e,
                calls := [.userFindOne (toLowerCase email), .userCreate (toLowerCase email)] }
            | .ok (user, store1) =>
              if userType = "doctor" then
                match store1.insertDoctor (placeholderDoctor now did user._id) with
                | .error e =>
                  { store := store1, res := signupCatch e,
                    calls := [.userFindOne (toLowerCase email),
                      .userCreate (toLowerCase email), .doctorCreate user._id] }
                | .ok store2 =>
                  { store := store2, res := signupSuccess lib user,
                    calls := [.userFindOne (toLowerCase email),
                      .userCreate (toLowerCase email), .doctorCreate user._id,
                      .generateToken
                        { userId := user._id, email := user.email,
                          userType := user.userType }] }
              else
                { store := store1, res := signupSuccess lib user,
                  calls := [.userFindOne (toLowerCase email),
                    .userCreate (toLowerCase email),
                    .generateToken
                      { userId := user._id, email := user.email,
                        userType := user.userType }] }
        | _ =>
          { store := store, calls := [],
            res := signupCatch (.typeError "email.toLowerCase is not a function") }
      else
        { store := store, calls := [],
          res := fail 400 "User type must be either \"user\" or \"doctor\"" }
    | _ =>
      { store := store, calls := [],
        res := fail 400 "User type must be either \"user\" or \"doctor\"" }

/-- The response of `protect` when no token can be read from the header. -/
def noTokenResponse : Response :=
  fail 401 "Not authorized to access this route. No token provided."

/-- The response of `protect` to a token that does not verify. -/
def invalidTokenResponse : Response := fail 401 "Invalid or expired token"

/-- The response of `protect` when the identity of the token is gone. -/
def userNotFoundResponse : Response := fail 404 "User not found"

/-- The response of `protect` to a deactivated identity. -/
def deactivatedResponse : Response := fail 403 "Your account has been deactivated"

/-- The response of `authorizeDoctor` on a role mismatch. -/
def doctorsOnlyResponse : Response :=
  fail 403 "Access denied. Only doctors can access this route."

/-! ## Login and `/auth/me` (`routes/auth.js`) -/

/-- The `catch` of the login and `/auth/me` handlers: every exception is
answered 500 with its message. -/
def serverError (e : Thrown) : Response :=
  { status := 500, success := false, message := some "Internal server error",
    error := some e.message, data := .none }

/-- `Doctor.findOne({ userId })`. -/
def Store.findDoctorByUserId (s : Store) (userId : ObjectId) : Option Doctor :=
  s.doctors.find? (fun d => d.userId == userId)

/-- The `doctorProfile` object literal of the login handler (lines 188-199). -/
def loginDoctorView (d : Doctor) : DoctorView :=
  { _id := d._id, specialization := d.specialization, licenseNumber := d.licenseNumber,
    qualification := d.qualification, experience := d.experience,
    consultationFee := d.consultationFee, availableSlots := none, rating := d.rating,
    totalReviews := d.totalReviews, bio := d.bio, services := none,
    isVerified := d.isVerified }

/-- The `userResponse` literal of the login handler (lines 174-201). -/
def loginUserResponse (user : User) (doctorProfile : Option Doctor) : UserResponse :=
  { _id := user._id, email := user.email, name := user.name, userType := user.userType,
    phone := user.phone, address := user.address, dateOfBirth := user.dateOfBirth,
    gender := user.gender, profileImage := user.profileImage, isActive := user.isActive,
    isEmailVerified := user.isEmailVerified, createdAt := user.createdAt,
    updatedAt := none, doctorProfile := some (doctorProfile.map loginDoctorView) }

/-- The handler of `POST /api/auth/login`. The lookup of line 133 includes the
password (`select('+password')`). `comparePassword` is a method of the user
model; on a document without stored hash it throws, and the text of that
exception is a stand-in. -/
def login (lib : Lib) (store : Store) (body : Body) : HandlerResult :=
  if !body.email.truthy || !body.password.truthy then
    { store := store, calls := [], res := fail 400 "Please provide email and password" }
  else
    match body.email with
    | .str email =>
      match store.users.find? (fun u => u.email == toLowerCase email) with
      | none =>
        { store := store, calls := [.userFindOne (toLowerCase email)],
          res := fail 401 "Invalid email or password" }
      | some user =>
        if !user.isActive then
          { store := store, calls := [.userFindOne (toLowerCase email)],
            res := fail 403 "Your account has been deactivated. Please contact support." }
        else
          match user.password with
          | none =>
            { store := store,
              calls := [.userFindOne (toLowerCase email), .comparePassword user._id],
              res := serverError (.typeError "Illegal arguments: string, undefined") }
          | some hash =>
            if !lib.comparePassword body.password hash then
              { store := store,
                calls := [.userFindOne (toLowerCase email), .comparePassword user._id],
                res := fail 401 "Invalid email or password" }
            else if user.userType = "doctor" then
              { store := store,
                calls := [.userFindOne (toLowerCase email), .comparePassword user._id,
                  .generateToken
                    { userId := user._id, email := user.email, userType := user.userType },
                  .doctorFindOne user._id],
                res :=
                  { status := 200, success := true, message := some "Login successful",
                    error := none,
                    data := .auth (loginUserResponse user (store.findDoctorByUserId user._id))
                      (lib.generateToken
                        { userId := user._id, email := user.email,
                          userType := user.userType }) } }
            else
              { store := store,
                calls := [.userFindOne (toLowerCase email), .comparePassword user._id,
                  .generateToken
                    { userId := user._id, email := user.email, userType := user.userType }],
                res :=
                  { status := 200, success := true, message := some "Login successful",
                    error := none,
                    data := .auth (loginUserResponse user none)
                      (lib.generateToken
                        { userId := user._id, email := user.email,
                          userType := user.userType }) } }
    | _ =>
      { store := store, calls := [],
        res := serverError (.typeError "email.toLowerCase is not a function") }

/-- The `doctorProfile` object literal of `/auth/me` (lines 247-260). -/
def meDoctorView (d : Doctor) : DoctorView :=
  { _id := d._id, specialization := d.specialization, licenseNumber := d.licenseNumber,
    qualification := d.qualification, experience := d.experience,
    consultationFee := d.consultationFee, availableSlots := some d.availableSlots,
    rating := d.rating, totalReviews := d.totalReviews, bio := d.bio,
    services := some d.services, isVerified := d.isVerified }

/-- The `userResponse` literal of `/auth/me` (lines 232-262). -/
def meUserResponse (user : User) (doctorProfile : Option Doctor) : UserResponse :=
  { _id := user._id, email := user.email, name := user.name, userType := user.userType,
    phone := user.phone, address := user.address, dateOfBirth := user.dateOfBirth,
    gender := user.gender, profileImage := user.profileImage, isActive := user.isActive,
    isEmailVerified := user.isEmailVerified, createdAt := user.createdAt,
    updatedAt := some user.updatedAt, doctorProfile := some (doctorProfile.map meDoctorView) }

/-- The handler of `GET /api/auth/me`, which runs after `protect`. Without
`req.user` the read `req.user.userType` throws. The body has no `message`. -/
def me (store : Store) (req : Request) : HandlerResult :=
  match req.user with
  | none =>
    { store := store, calls := [],
      res := serverError
        (.typeError "Cannot read properties of undefined (reading 'userType')") }
  | some user =>
    if user.userType = "doctor" then
      { store := store, calls := [.doctorFindOne user._id],
        res := { status := 200, success := true, message := none, error := none,
                 data := .user (meUserResponse user (store.findDoctorByUserId user._id)) } }
    else
      { store := store, calls := [],
        res := { status := 200, success := true, message := none, error := none,
                 data := .user (meUserResponse user none) } }

/-- Express dispatch of a route whose handler follows a guard: the response the
guard sent stands; when it sent none (it called `next`), the handler runs on
the request the guard left. -/
def route (guard : MwResult) (store : Store) (handler : Request → HandlerResult) :
    HandlerResult :=
  match guard.res with
  | some r => { store := store, res := r, calls := guard.calls }
  | none =>
    { store := (handler guard.req).store, res := (handler guard.req).res,
      calls := guard.calls ++ (handler guard.req).calls }

/-- The route `GET /api/auth/me`: `protect`, then the handler. -/
def meRoute (lib : Lib) (store : Store) (req : Request) : HandlerResult :=
  route (protect lib store req) store (me store)

/-- Two stores differ at most in the password hashes stored with their
identities. -/
def Store.sameButHashes (s1 s2 : Store) : Prop :=
  s1.users.map User.withoutPassword = s2.users.map User.withoutPassword ∧
    s1.doctors = s2.doctors

/-! ## Profile update (`routes/doctors.js`) -/

/-- The white space that `String.prototype.trim` removes. -/
def isJsWhitespace (c : Char) : Bool :=
  [0x09, 0x0A, 0x0B, 0x0C, 0x0D, 0x20, 0xA0, 0x1680, 0x2000, 0x2001, 0x2002, 0x2003, 0x2004,
    0x2005, 0x2006, 0x2007, 0x2008, 0x2009, 0x200A, 0x2028, 0x2029, 0x202F, 0x205F, 0x3000,
    0xFEFF].contains c.toNat

/-- Model of `String.prototype.trim`, the setter behind `trim: true`. -/
def jsTrim (s : String) : String :=
  ⟨((s.data.dropWhile isJsWhitespace).reverse.dropWhile isJsWhitespace).reverse⟩

/-- The fields of `req.body` read by `PUT /api/doctors/profile`; `none` is
`undefined`. A field that is present carries a value of the type the schema
gives it. -/
structure DoctorUpdate where
  specialization : Option String
  licenseNumber : Option String
  qualification : Option (List String)
  experience : Option Int
  consultationFee : Option Int
  availableSlots : Option (List Slot)
  bio : Option String
  services : Option (List String)
  deriving DecidableEq, Repr

/-- Lines 113-120: each field that is not `undefined` is assigned to the
document; the assignment runs the `trim` setters of the schema. -/
def applyUpdate (doctor : Doctor) (b : DoctorUpdate) : Doctor :=
  { doctor with
    specialization := (b.specialization.map jsTrim).getD doctor.specialization
    licenseNumber := (b.licenseNumber.map jsTrim).getD doctor.licenseNumber
    qualification := b.qualification.getD doctor.qualification
    experience := b.experience.getD doctor.experience
    consultationFee := b.consultationFee.getD doctor.consultationFee
    availableSlots := b.availableSlots.getD doctor.availableSlots
    bio := b.bio.getD doctor.bio
    services := b.services.getD doctor.services }

/-- The document `doctor.save()` writes: `updatedAt` moves to the clock when
the document was modified. -/
def savedDoctor (now : Nat) (old new : Doctor) : Doctor :=
  if new = old then old else { new with updatedAt := now }

/-- `doctor.save()` on a document loaded as `old` and modified to `new`: the
schema validators run on the document, the unique index on `licenseNumber` is
checked against the other documents, then the document replaces the stored
one. -/
def Store.saveDoctor (now : Nat) (s : Store) (old new : Doctor) :
    Except Thrown (Doctor × Store) :=
  if doctorSchemaErrors new ≠ [] then .error (.validationError (doctorSchemaErrors new))
  else if s.doctors.any (fun x => x._id != new._id && x.licenseNumber == new.licenseNumber) then
    .error (.duplicateKey "licenseNumber_1")
  else
    .ok (savedDoctor now old new,
      { s with doctors :=
          s.doctors.map (fun x => if x._id == new._id then savedDoctor now old new else x) })

/-- The handler of `PUT /api/doctors/profile`, which runs after `protect` and
`authorizeDoctor`. Its `catch` (lines 129-146) is the one of signup. -/
def updateProfile (now : Nat) (store : Store) (b : DoctorUpdate) (req : Request) :
    HandlerResult :=
  match req.user with
  | none =>
    { store := store, calls := [],
      res := signupCatch (.typeError "Cannot read properties of undefined (reading '_id')") }
  | some user =>
    match store.findDoctorByUserId user._id with
    | none =>
      { store := store, calls := [.doctorFindOne user._id],
        res := fail 404 "Doctor profile not found" }
    | some doctor =>
      match store.saveDoctor now doctor (applyUpdate doctor b) with
      | .error e =>
        { store := store, calls := [.doctorFindOne user._id, .doctorSave doctor._id],
          res := signupCatch e }
      | .ok (saved, store1) =>
        { store := store1, calls := [.doctorFindOne user._id, .doctorSave doctor._id],
          res := { status := 200, success := true,
                   message := some "Doctor profile updated successfully", error := none,
                   data := .doctor saved } }

/-- The route `PUT /api/doctors/profile`: `protect`, `authorizeDoctor`, then
the handler. -/
def putProfileRoute (lib : Lib) (now : Nat) (store : Store) (req : Request)
    (b : DoctorUpdate) : HandlerResult :=
  route (doctorOnly lib store req) store (updateProfile now store b)

/-! ## Doctor directory (`routes/doctors.js`) -/

/-- The value of a decimal digit. -/
def digitVal (c : Char) : Option Nat :=
  if '0' ≤ c ∧ c ≤ '9' then some (c.toNat - '0'.toNat) else none

/-- The value of a hexadecimal digit. -/
def hexVal (c : Char) : Option Nat :=
  if '0' ≤ c ∧ c ≤ '9' then some (c.toNat - '0'.toNat)
  else if 'a' ≤ c ∧ c ≤ 'f' then some (c.toNat - 'a'.toNat + 10)
  else if 'A' ≤ c ∧ c ≤ 'F' then some (c.toNat - 'A'.toNat + 10)
  else none

/-- Reads the longest run of digits at the head of the input: the number read
so far, the count of digits, and the rest. -/
def readDigits (val : Char → Option Nat) (radix : Nat) :
    List Char → Nat → Nat → Nat × Nat × List Char
  | [], acc, n => (acc, n, [])
  | c :: cs, acc, n =>
    match val c with
    | some v => readDigits val radix cs (acc * radix + v) (n + 1)
    | none => (acc, n, c :: cs)

/-- An optional sign at the head of the input: whether it is a minus, and the
rest. -/
def readSign : List Char → Bool × List Char
  | '-' :: cs => (true, cs)
  | '+' :: cs => (false, cs)
  | cs => (false, cs)

/-- Model of `parseInt(s)` on a string: leading white space, a sign, a `0x`
prefix for radix 16, then the longest run of digits; `none` is `NaN`. The value
is exact, where JavaScript rounds to a double beyond 2^53. -/
def parseInt (s : String) : Option Int :=
  let (neg, cs) := readSign (s.data.dropWhile isJsWhitespace)
  let (v, n, _) :=
    match cs with
    | '0' :: 'x' :: r => readDigits hexVal 16 r 0 0
    | '0' :: 'X' :: r => readDigits hexVal 16 r 0 0
    | r => readDigits digitVal 10 r 0 0
  if n = 0 then none else some (if neg then -(v : Int) else (v : Int))

/-- A JavaScript number as far as the rating filter needs it: `NaN`, the two
infinities, or a finite value, given exactly where JavaScript rounds to a
double. -/
inductive JsNum where
  | nan
  | posInf
  | negInf
  | fin (q : Rat)
  deriving DecidableEq, Repr

/-- The exponent part `e[+-]digits` at the head of the input, if there is one
with a digit. -/
def readExponent : List Char → Int
  | c :: cs =>
    if c = 'e' ∨ c = 'E' then
      let (neg, r) := readSign cs
      let (v, n, _) := readDigits digitVal 10 r 0 0
      if n = 0 then 0 else if neg then -(v : Int) else (v : Int)
    else 0
  | [] => 0

/-- Model of `parseFloat(s)`: leading white space, a sign, then `Infinity` or
the longest prefix that is a decimal literal (digits, a fraction, an
exponent). -/
def parseFloat (s : String) : JsNum :=
  let (neg, cs) := readSign (s.data.dropWhile isJsWhitespace)
  if "Infinity".data.isPrefixOf cs then (if neg then .negInf else .posInf)
  else
    let (i, ni, r1) := readDigits digitVal 10 cs 0 0
    let (f, nf, r2) :=
      match r1 with
      | '.' :: r => readDigits digitVal 10 r 0 0
      | r => (0, 0, r)
    if ni = 0 ∧ nf = 0 then .nan
    else
      let e := readExponent r2
      let mantissa : Int := if neg then -((i * 10 ^ nf + f : Nat) : Int) else (i * 10 ^ nf + f : Nat)
      if 0 ≤ e - nf then .fin (mkRat (mantissa * 10 ^ (e - nf).toNat) 1)
      else .fin (mkRat mantissa (10 ^ (nf - e).toNat))

/-- The query string of `GET /api/doctors`; `none` is a parameter that is not
given. -/
structure DoctorQuery where
  specialization : Option String
  minRating : Option String
  isVerified : Option String
  page : Option String
  limit : Option String
  deriving DecidableEq, Repr

/-- The `query` object built in lines 14-26: a `$regex` with option `i` on
specialization, a `$gte` bound on rating, `isVerified: true`. -/
structure DoctorFilter where
  specialization : Option String
  rating : Option JsNum
  isVerified : Bool
  deriving DecidableEq, Repr

/-- Lines 14-26: a parameter adds its condition when it is truthy (a non-empty
string); `isVerified` only when it is the string 'true'. -/
def buildFilter (q : DoctorQuery) : DoctorFilter :=
  { specialization :=
      match q.specialization with
      | some s => if s = "" then none else some s
      | none => none
    rating :=
      match q.minRating with
      | some m => if m = "" then none else some (parseFloat m)
      | none => none
    isVerified := q.isVerified = some "true" }

/-- `rating >= m` as the database compares: nothing is at least `NaN` or the
positive infinity. -/
def ratingAtLeast (rating : Rat) : JsNum → Bool
  | .nan => false
  | .posInf => false
  | .negInf => true
  | .fin q => q ≤ rating

/-- The conditions of a filter other than the `$regex`. -/
def DoctorFilter.plain (f : DoctorFilter) (d : Doctor) : Bool :=
  (match f.rating with
    | some m => ratingAtLeast d.rating m
    | none => true) &&
  (if f.isVerified then d.isVerified else true)

/-- The predicate of a filter. The regular expression engine of the database
is `rx`: it compiles a pattern to a case-insensitive search, or rejects it
(`none`). -/
def DoctorFilter.compile (rx : String → Option (String → Bool)) (f : DoctorFilter) :
    Option (Doctor → Bool) :=
  match f.specialization with
  | none => some (fun d => f.plain d)
  | some pattern => (rx pattern).map (fun found d => found d.specialization && f.plain d)

/-- The order of `sort({ rating: -1, totalReviews: -1 })`: higher rating
first, then more reviews first. -/
def doctorBefore (a b : Doctor) : Prop :=
  b.rating < a.rating ∨ (a.rating = b.rating ∧ b.totalReviews ≤ a.totalReviews)

instance doctorBeforeDecidable : DecidableRel doctorBefore := fun a b =>
  inferInstanceAs (Decidable (b.rating < a.rating ∨
    (a.rating = b.rating ∧ b.totalReviews ≤ a.totalReviews)))

/-- The matching documents in sorted order. Documents that agree on both sort
keys keep the order of the collection (the database leaves their order
open). -/
def sortedMatching (store : Store) (p : Doctor → Bool) : List Doctor :=
  (store.doctors.filter p).insertionSort doctorBefore

/-- `populate('userId', 'name email phone profileImage')`. -/
def Store.populate (s : Store) (d : Doctor) : ListedDoctor :=
  { doctor := d
    userId := (s.users.find? (fun u => u._id == d.userId)).map (fun u =>
      { _id := u._id, name := u.name, email := u.email, phone := u.phone,
        profileImage := u.profileImage }) }

/-- `.skip(skip).limit(limit)` on a sorted result, for a non-negative skip: a
limit of 0 is no limit, and the driver sends a negative limit as its absolute
value. -/
def skipLimit (skip limit : Int) (l : List Doctor) : List Doctor :=
  if limit = 0 then l.drop skip.toNat else (l.drop skip.toNat).take limit.natAbs

/-- `Math.ceil(total / limit)`: `none` for a zero limit, where JavaScript has
`NaN` or `Infinity`. -/
def ceilDiv (total : Nat) (limit : Int) : Option Int :=
  if limit = 0 then none
  else if 0 < limit then some (((total : Int) + limit - 1) / limit)
  else some (-((total : Int) / (-limit)))

/-- `parseInt(page)`, where `page` defaults to the number 1 (line 11). -/
def queryPage (q : DoctorQuery) : Option Int :=
  match q.page with
  | some s => parseInt s
  | none => some 1

/-- `parseInt(limit)`, where `limit` defaults to the number 10 (line 11). -/
def queryLimit (q : DoctorQuery) : Option Int :=
  match q.limit with
  | some s => parseInt s
  | none => some 10

/-- The handler of `GET /api/doctors`. The database rejects a pattern its regular expression engine
does not compile, a skip or limit that is `NaN`, and a negative skip; the
texts of these errors are stand-ins. -/
def getDoctors (rx : String → Option (String → Bool)) (store : Store) (q : DoctorQuery) :
    HandlerResult :=
  match (buildFilter q).compile rx with
  | none =>
    { store := store, calls := [.doctorFind],
      res := serverError (.driver "Regular expression is invalid") }
  | some matching =>
    match queryPage q, queryLimit q with
    | some p, some l =>
      if (p - 1) * l < 0 then
        { store := store, calls := [.doctorFind],
          res := serverError (.driver "Skip value must be non-negative") }
      else
        { store := store, calls := [.doctorFind, .doctorCount],
          res :=
            { status := 200, success := true, message := none, error := none,
              data := .doctors
                ((skipLimit ((p - 1) * l) l (sortedMatching store matching)).map store.populate)
                { page := some p, limit := some l,
                  total := (store.doctors.filter matching).length,
                  pages := ceilDiv (store.doctors.filter matching).length l } } }
    | _, _ =>
      { store := store, calls := [.doctorFind],
        res := serverError (.driver "Skip and limit must be numbers") }

/-! ## Signup under a concurrent write -/

/-- The signup handler when another request writes to the store while this one
awaits the lookup of line 31: the lookup reads `store`, and `User.create` and
all that follows run on `later`. With `later = store` this is `signup`. -/
def signupRaced (lib : Lib) (now : Nat) (uid did : ObjectId) (store later : Store)
    (body : Body) : HandlerResult :=
  if !body.email.truthy || !body.password.truthy || !body.name.truthy ||
      !body.userType.truthy then
    { store := store, calls := [],
      res := fail 400 "Please provide all required fields: email, password, name, userType" }
  else
    match body.userType with
    | .str userType =>
      if userType = "user" ∨ userType = "doctor" then
        match body.email with
        | .str email =>
          match store.findUserByEmail (toLowerCase email) with
          | some _ =>
            { store := later, calls := [.userFindOne (toLowerCase email)],
              res := fail 409 "User with this email already exists" }
          | none =>
            match later.createUser lib now uid (signupDocument body email userType) with
            | .error e =>
              { store := later, res := signupCatch e,
                calls := [.userFindOne (toLowerCase email), .userCreate (toLowerCase email)] }
            | .ok (user, store1) =>
              if userType = "doctor" then
                match store1.insertDoctor (placeholderDoctor now did user._id) with
                | .error e =>
                  { store := store1, res := signupCatch e,
                    calls := [.userFindOne (toLowerCase email),
                      .userCreate (toLowerCase email), .doctorCreate user._id] }
                | .ok store2 =>
                  { store := store2, res := signupSuccess lib user,
                    calls := [.userFindOne (toLowerCase email),
                      .userCreate (toLowerCase email), .doctorCreate user._id,
                      .generateToken
                        { userId := user._id, email := user.email,
                          userType := user.userType }] }
              else
                { store := store1, res := signupSuccess lib user,
                  calls := [.userFindOne (toLowerCase email),
                    .userCreate (toLowerCase email),
                    .generateToken
                      { userId := user._id, email := user.email,
                        userType := user.userType }] }
        | _ =>
          { store := store, calls := [],
            res := signupCatch (.typeError "email.toLowerCase is not a function") }
      else
        { store := store, calls := [],
          res := fail 400 "User type must be either \"user\" or \"doctor\"" }
    | _ =>
      { store := store, calls := [],
        res := fail 400 "User type must be either \"user\" or \"doctor\"" }

/-- Whether `pattern` occurs in `text` as a contiguous run of characters. -/
def containsSubstring (text pattern : String) : Bool :=
  text.data.tails.any (fun t => pattern.data.isPrefixOf t)

/-- A request body of `PUT /api/doctors/profile`: the eight keys that lines
99-100 take from it, and the other keys it carries, which the handler does
not read. -/
structure ProfileBody where
  fields : DoctorUpdate
  others : List (String × JsVal)
  deriving DecidableEq, Repr

/-- The route `PUT /api/doctors/profile` on a whole request body. -/
def putProfile (lib : Lib) (now : Nat) (store : Store) (req : Request) (body : ProfileBody) :
    HandlerResult :=
  putProfileRoute lib now store req body.fields

/-! ## Sample values -/

/-- A token service and user model for evaluating the handlers: tokens are
the claims written out, every document passes the user schema. -/
def sampleLib : Lib :=
  { verifyToken := fun t =>
      if t = "jwt-7" then some { userId := 7, email := "ann@x.org", userType := "user" }
      else if t = "jwt-8" then some { userId := 8, email := "bob@x.org", userType := "doctor" }
      else if t = "jwt-9" then some { userId := 9, email := "gone@x.org", userType := "user" }
      else none
    generateToken := fun c => "jwt-" ++ toString c.userId
    userSchemaErrors := fun _ => []
    hashPassword := fun _ => "$2a$10$hash"
    comparePassword := fun _ _ => true
    defaultProfileImage := .str "" }

/-- An active patient. -/
def sampleAnn : User :=
  { _id := 7, email := "ann@x.org", password := some "$2a$10$hash", name := .str "Ann",
    userType := "user", phone := .undefined, address := .undefined, dateOfBirth := none,
    gender := .undefined, profileImage := .str "", isActive := true,
    isEmailVerified := false, createdAt := 5, updatedAt := 5 }

/-- A deactivated doctor. -/
def sampleBob : User :=
  { _id := 8, email := "bob@x.org", password := some "$2a$10$hash", name := .str "Bob",
    userType := "doctor", phone := .undefined, address := .undefined, dateOfBirth := none,
    gender := .undefined, profileImage := .str "", isActive := false,
    isEmailVerified := false, createdAt := 6, updatedAt := 6 }

/-- A store holding the two sample identities. -/
def sampleStore : Store := { users := [sampleAnn, sampleBob], doctors := [] }

/-- A body with no field set. -/
def emptyBody : Body :=
  { email := .undefined, password := .undefined, name := .undefined, userType := .undefined,
    phone := .undefined, address := .undefined, dateOfBirth := .undefined,
    gender := .undefined }

/-- A request with the given `Authorization` header and nothing else. -/
def requestWith (authorization : Option String) : Request :=
  { authorization := authorization, user := none, body := emptyBody }

/-- The signup body `{email, password, name, userType}`. -/
def signupBody (email password name userType : String) : Body :=
  { emptyBody with email := .str email, password := .str password, name := .str name,
                   userType := .str userType }

/-- The store after a first doctor signed up on an empty store at clock value
1700000000000. -/
def storeAfterFirstDoctor : Store :=
  (signup sampleLib 1700000000000 1 2 { users := [], doctors := [] }
    (signupBody "Dr.A@x.org" "DoctorPass123!" "Dr. A" "doctor")).store

/-- A second doctor signing up at the same clock value 1700000000000. -/
def secondDoctorSignup : HandlerResult :=
  signup sampleLib 1700000000000 3 4 storeAfterFirstDoctor
    (signupBody "dr.b@x.org" "DoctorPass123!" "Dr. B" "doctor")

/-- A user model that accepts the password 'secret' only. -/
def strictLib : Lib :=
  { sampleLib with
    comparePassword := fun pw hash => pw == .str "secret" && hash == "$2a$10$hash" }

/-- The login body `{email, password}`. -/
def loginBody (email password : String) : Body :=
  { emptyBody with email := .str email, password := .str password }

/-- The sample store with another hash stored for the first identity. -/
def sampleStoreRehashed : Store :=
  { users := [{ sampleAnn with password := some "$2a$10$other" }, sampleBob], doctors := [] }

/-- An active doctor. -/
def sampleCara : User :=
  { _id := 10, email := "cara@x.org", password := some "$2a$10$hash", name := .str "Cara",
    userType := "doctor", phone := .undefined, address := .undefined, dateOfBirth := none,
    gender := .undefined, profileImage := .str "", isActive := true,
    isEmailVerified := false, createdAt := 7, updatedAt := 7 }

/-- The profile of the sample doctor. -/
def sampleCaraProfile : Doctor :=
  { _id := 11, userId := 10, specialization := "Cardiology", licenseNumber := "LIC-1",
    qualification := ["MD"], experience := 5, consultationFee := 100, availableSlots := [],
    rating := 4, totalReviews := 12, bio := "Heart specialist", services := ["ECG"],
    isVerified := true, verificationDocuments := [], createdAt := 7, updatedAt := 8 }

/-- A store holding the sample doctor and her profile. -/
def clinicStore : Store := { users := [sampleCara], doctors := [sampleCaraProfile] }

/-- A token service that knows the token of the sample doctor. -/
def clinicLib : Lib :=
  { sampleLib with
    verifyToken := fun t =>
      if t = "jwt-10" then some { userId := 10, email := "cara@x.org", userType := "doctor" }
      else none }

/-- An update body with no field. -/
def emptyUpdate : DoctorUpdate :=
  { specialization := none, licenseNumber := none, qualification := none, experience := none,
    consultationFee := none, availableSlots := none, bio := none, services := none }

/-- Regular expressions of the sample engine. -/
inductive Rx where
  | none
  | eps
  | chr (c : Char)
  | any
  | seq (a b : Rx)
  | alt (a b : Rx)
  | star (a : Rx)
  deriving DecidableEq, Repr

/-- Whether the expression matches the empty string. -/
def Rx.nullable : Rx → Bool
  | .none => false
  | .eps => true
  | .chr _ => false
  | .any => false
  | .seq a b => a.nullable && b.nullable
  | .alt a b => a.nullable || b.nullable
  | .star _ => true

/-- The derivative of the expression by a character; `.` matches every
character but the line feed. -/
def Rx.deriv (c : Char) : Rx → Rx
  | .none => .none
  | .eps => .none
  | .chr d => if c = d then .eps else .none
  | .any => if c.toNat = 0x0A then .none else .eps
  | .seq a b => if a.nullable then .alt (.seq (a.deriv c) b) (b.deriv c) else .seq (a.deriv c) b
  | .alt a b => .alt (a.deriv c) (b.deriv c)
  | .star a => .seq (a.deriv c) (.star a)

/-- Whether the expression matches the whole input. -/
def Rx.accepts (r : Rx) : List Char → Bool
  | [] => r.nullable
  | c :: cs => (r.deriv c).accepts cs

/-- The concatenation of a list of expressions. -/
def Rx.seqOf : List Rx → Rx
  | [] => .eps
  | [a] => a
  | a :: rest => .seq a (Rx.seqOf rest)

/-- The alternation of a list of expressions. -/
def Rx.altOf : List Rx → Rx
  | [] => .none
  | [a] => a
  | a :: rest => .alt a (Rx.altOf rest)

/-- A group under construction: the alternatives that are complete and the
atoms of the alternative being read, both latest first. -/
structure RxFrame where
  alts : List Rx
  cur : List Rx
  deriving Repr

/-- The expression of a group that is complete. -/
def RxFrame.close (f : RxFrame) : Rx :=
  Rx.altOf ((Rx.seqOf f.cur.reverse :: f.alts).reverse)

/-- The sample parser: groups, `|`, the postfix operators `*`, `+` and `?`,
`.`, a backslash before a character that is not a letter or digit, and
literal characters read without regard to case. Every other pattern is
rejected: the operators `[ ] { } ^ $` and the letter escapes are outside this
engine. `esc` is set right after a backslash. -/
def parseRx : List Char → RxFrame → List RxFrame → Bool → Option Rx
  | [], f, [], esc => if esc then Option.none else some f.close
  | [], _, _ :: _, _ => Option.none
  | c :: cs, f, stack, true =>
    if c.isAlphanum then Option.none
    else parseRx cs { f with cur := .chr c :: f.cur } stack false
  | c :: cs, f, stack, false =>
    if c = '(' then parseRx cs { alts := [], cur := [] } (f :: stack) false
    else if c = ')' then
      match stack with
      | [] => Option.none
      | g :: rest => parseRx cs { g with cur := f.close :: g.cur } rest false
    else if c = '|' then
      parseRx cs { alts := Rx.seqOf f.cur.reverse :: f.alts, cur := [] } stack false
    else if c = '*' then
      match f.cur with
      | [] => Option.none
      | a :: rest => parseRx cs { f with cur := .star a :: rest } stack false
    else if c = '+' then
      match f.cur with
      | [] => Option.none
      | a :: rest => parseRx cs { f with cur := .seq a (.star a) :: rest } stack false
    else if c = '?' then
      match f.cur with
      | [] => Option.none
      | a :: rest => parseRx cs { f with cur := .alt a .eps :: rest } stack false
    else if c = '.' then parseRx cs { f with cur := .any :: f.cur } stack false
    else if c.toNat = 0x5C then parseRx cs f stack true
    else if [0x5B, 0x5D, 0x7B, 0x7D, 0x5E, 0x24].contains c.toNat then Option.none
    else parseRx cs { f with cur := .chr c.toLower :: f.cur } stack false

/-- A sample regular expression engine with option `i`: the pattern is
compiled by `parseRx`, and a text is searched for a match anywhere in it. -/
def regexLite (pattern : String) : Option (String → Bool) :=
  (parseRx pattern.data { alts := [], cur := [] } [] false).map (fun r text =>
    (Rx.seq (.star (.alt .any (.chr (Char.ofNat 0x0A))))
      (.seq r (.star (.alt .any (.chr (Char.ofNat 0x0A)))))).accepts (toLowerCase text).data)

/-- The directory query with the given `specialization` and nothing else. -/
def specializationQuery (s : String) : DoctorQuery :=
  { specialization := some s, minRating := none, isVerified := none, page := none,
    limit := none }

/-- The store while two signups with the email 'eve@x.org' are under way: it is
empty when both look the email up. -/
def emptyStore : Store := { users := [], doctors := [] }

/-- The store after the first of the two signups created its identity. -/
def storeAfterEve : Store :=
  (signup sampleLib 10 20 21 emptyStore (signupBody "eve@x.org" "pw-one" "Eve" "user")).store

/-- The second of the two signups: its lookup saw the empty store, its
`User.create` meets the identity of the first. -/
def racedSignup : HandlerResult :=
  signupRaced sampleLib 11 22 23 emptyStore storeAfterEve
    (signupBody "Eve@x.org" "pw-two" "Eve" "user")

/-- A profile whose specialization is written 'A+E'. -/
def sampleEmergencyProfile : Doctor :=
  { sampleCaraProfile with _id := 12, userId := 13, specialization := "A+E",
                           licenseNumber := "LIC-2", rating := 3, totalReviews := 4 }

/-- A profile with a fractional rating. -/
def sampleDermaProfile : Doctor :=
  { sampleCaraProfile with _id := 14, userId := 15, specialization := "Dermatology",
                           licenseNumber := "LIC-3", rating := mkRat 9 2, totalReviews := 30 }

/-- A store with three profiles. -/
def directoryStore : Store :=
  { users := [sampleCara],
    doctors := [sampleEmergencyProfile, sampleCaraProfile, sampleDermaProfile] }

/-- The directory query with the given rating bound, page and page size. -/
def pageQuery (minRating page limit : Option String) : DoctorQuery :=
  { specialization := none, minRating := minRating, isVerified := none, page := page,
    limit := limit }

/-- A profile that is not verified. -/
def sampleNewProfile : Doctor :=
  { sampleCaraProfile with _id := 16, userId := 17, specialization := "General",
                           licenseNumber := "LIC-4", rating := 0, totalReviews := 0,
                           isVerified := false }

/-- A store with a verified and an unverified profile. -/
def mixedStore : Store :=
  { users := [sampleCara], doctors := [sampleCaraProfile, sampleNewProfile] }

/-- The directory query with the given `isVerified` value and nothing else. -/
def verifiedQuery (isVerified : Option String) : DoctorQuery :=
  { specialization := none, minRating := none, isVerified := isVerified, page := none,
    limit := none }

/-! ## Lemmas on the store -/

theorem find_some_mem {α : Type} (p : α → Bool) (l : List α) (a : α)
    (h : l.find? p = some a) : a ∈ l ∧ p a = true :=
  ⟨List.mem_of_find?_eq_some h, List.find?_some h⟩

theorem findUserById_eq_none (s : Store) (id : ObjectId)
    (h : ∀ u ∈ s.users, u._id ≠ id) : s.findUserById id = none := by
  unfold Store.findUserById
  have : s.users.find? (fun u => u._id == id) = none := by
    rw [List.find?_eq_none]
    intro u hu
    simpa using h u hu
  rw [this]; rfl

/-! ## The auth gate -/

/-- C1: `protect` calls `next` (once, sending nothing) exactly when the header
yields a token, the token verifies to claims, the store returns an identity for
the claims' `userId` and that identity is active; then `req.user` is that
identity read without its password and nothing else of the request changes;
in every other case `next` is not called, a response is sent and the request
is left as it was. -/
theorem protect_next_iff (lib : Lib) (store : Store) (req : Request) :
    (((protect lib store req).nextCalls = 1 ∧ (protect lib store req).res = none) ↔
      ∃ token decoded u,
        tokenPresent (extractToken req.authorization) = some token ∧
        lib.verifyToken token = some decoded ∧
        store.users.find? (fun x => x._id == decoded.userId) = some u ∧
        u.isActive = true) ∧
    (∀ token decoded u,
        tokenPresent (extractToken req.authorization) = some token →
        lib.verifyToken token = some decoded →
        store.users.find? (fun x => x._id == decoded.userId) = some u →
        u.isActive = true →
        u ∈ store.users ∧ u._id = decoded.userId ∧
        (protect lib store req).req = { req with user := some u.withoutPassword } ∧
        u.withoutPassword.password = none ∧
        (protect lib store req).nextCalls = 1 ∧ (protect lib store req).res = none) ∧
    ((¬ ∃ token decoded u,
        tokenPresent (extractToken req.authorization) = some token ∧
        lib.verifyToken token = some decoded ∧
        store.users.find? (fun x => x._id == decoded.userId) = some u ∧
        u.isActive = true) →
      (protect lib store req).nextCalls = 0 ∧ (protect lib store req).req = req ∧
      (protect lib store req).res ≠ none) := by
  refine ⟨⟨?_, ?_⟩, ?_, ?_⟩
  · intro h
    unfold protect at h
    split at h
    · simp at h
    · rename_i token ht
      split at h
      · simp at h
      · rename_i decoded hv
        unfold Store.findUserById at h
        cases hu : store.users.find? (fun x => x._id == decoded.userId) with
        | none => simp [hu] at h
        | some u =>
          refine ⟨token, decoded, u, ht, hv, hu, ?_⟩
          cases ha : u.isActive with
          | true => rfl
          | false => simp [hu, User.withoutPassword, ha] at h
  · rintro ⟨token, decoded, u, ht, hv, hu, ha⟩
    simp [protect, ht, hv, Store.findUserById, hu, User.withoutPassword, ha]
  · intro token decoded u ht hv hu ha
    have hm := find_some_mem _ _ _ hu
    refine ⟨hm.1, by simpa using hm.2, ?_, rfl, ?_, ?_⟩ <;>
      simp [protect, ht, hv, Store.findUserById, hu, User.withoutPassword, ha]
  · intro hne
    unfold protect
    split
    · simp
    · rename_i token ht
      split
      · simp
      · rename_i decoded hv
        unfold Store.findUserById
        cases hu : store.users.find? (fun x => x._id == decoded.userId) with
        | none => simp
        | some u =>
          cases ha : u.isActive with
          | true => exact absurd ⟨token, decoded, u, ht, hv, hu, ha⟩ hne
          | false => simp [User.withoutPassword, ha]

/-- C2: a request whose `Authorization` header is absent or does not begin
with "Bearer" gets the 401 'No token provided' response; `next` is not called
and neither the token service nor the store is called, whatever they are. -/
theorem protect_no_credential (lib : Lib) (store : Store) (req : Request)
    (h : req.authorization = none ∨
      ∃ a, req.authorization = some a ∧ startsWith a "Bearer" = false) :
    protect lib store req =
        { req := req, nextCalls := 0, calls := [],
          res := some { status := 401, success := false,
                        message := some "Not authorized to access this route. No token provided.",
                        error := none, data := .none } } ∧
      ∀ (lib2 : Lib) (store2 : Store), protect lib2 store2 req = protect lib store req := by
  have key : ∀ (l : Lib) (s : Store), protect l s req =
      { req := req, nextCalls := 0, calls := [], res := some noTokenResponse } := by
    intro l s
    have ht : tokenPresent (extractToken req.authorization) = none := by
      rcases h with h | ⟨a, ha, hb⟩
      · simp [h, extractToken, tokenPresent]
      · simp [ha, extractToken, hb, tokenPresent]
    simp [protect, ht, noTokenResponse]
  refine ⟨?_, ?_⟩
  · rw [key]; rfl
  · intro l2 s2; rw [key, key]

/-- C3: when the header carries a token for which `verifyToken` returns null,
`protect` answers 401 'Invalid or expired token', does not call `next`, and
its only call is `verifyToken`: the store is not read, and the result is the
same for every store. -/
theorem protect_invalid_token (lib : Lib) (store : Store) (req : Request) (token : String)
    (ht : tokenPresent (extractToken req.authorization) = some token)
    (hv : lib.verifyToken token = none) :
    protect lib store req =
        { req := req, nextCalls := 0, calls := [.verifyToken token],
          res := some { status := 401, success := false,
                        message := some "Invalid or expired token",
                        error := none, data := .none } } ∧
      ∀ store2 : Store, protect lib store2 req = protect lib store req := by
  have key : ∀ s : Store, protect lib s req =
      { req := req, nextCalls := 0, calls := [.verifyToken token],
        res := some invalidTokenResponse } := by
    intro s; simp [protect, ht, hv, invalidTokenResponse]
  refine ⟨?_, ?_⟩
  · rw [key]; rfl
  · intro s2; rw [key, key]

/-- C4: when the token verifies to claims whose `userId` no identity of the
store has, `protect` answers 404 'User not found' and does not call `next`;
the status is neither 401 nor 403, and status and message both differ from
those of the invalid-token response. -/
theorem protect_user_not_found (lib : Lib) (store : Store) (req : Request)
    (token : String) (decoded : Claims)
    (ht : tokenPresent (extractToken req.authorization) = some token)
    (hv : lib.verifyToken token = some decoded)
    (hs : ∀ u ∈ store.users, u._id ≠ decoded.userId) :
    protect lib store req =
        { req := req, nextCalls := 0,
          calls := [.verifyToken token, .userFindById decoded.userId],
          res := some { status := 404, success := false, message := some "User not found",
                        error := none, data := .none } } ∧
      (∀ r, (protect lib store req).res = some r → r.status ≠ 401 ∧ r.status ≠ 403) ∧
      userNotFoundResponse.status ≠ invalidTokenResponse.status ∧
      userNotFoundResponse.message ≠ invalidTokenResponse.message := by
  have key : protect lib store req =
      { req := req, nextCalls := 0,
        calls := [.verifyToken token, .userFindById decoded.userId],
        res := some userNotFoundResponse } := by
    simp [protect, ht, hv, findUserById_eq_none store _ hs, userNotFoundResponse]
  refine ⟨by rw [key]; rfl, ?_, by decide, by decide⟩
  intro r hr
  rw [key] at hr
  simp only [Option.some.injEq] at hr
  subst hr
  decide

/-- When `protect` calls `next`, the request carries an active identity of the
store, read without its password. -/
theorem protect_next_user (lib : Lib) (store : Store) (req : Request)
    (h : (protect lib store req).nextCalls ≠ 0) :
    ∃ v ∈ store.users, v.isActive = true ∧
      (protect lib store req).req.user = some v.withoutPassword := by
  unfold protect at h ⊢
  split at h
  · simp at h
  · rename_i token ht
    split at h
    · simp at h
    · rename_i decoded hv
      unfold Store.findUserById at h ⊢
      cases hu : store.users.find? (fun x => x._id == decoded.userId) with
      | none => simp [hu] at h
      | some u =>
        cases ha : u.isActive with
        | false => simp [hu, User.withoutPassword, ha] at h
        | true =>
          refine ⟨u, (find_some_mem _ _ _ hu).1, ha, ?_⟩
          simp [ht, hv, User.withoutPassword, ha]

/-- C5: a valid token whose identity exists and is deactivated gets the 403
'Your account has been deactivated' from `protect`, without `next`; the
doctor-only pipeline `protect, authorizeDoctor` then returns that same result
whatever the role of the identity, never the role-mismatch 403; and for every
request the role gate runs only after `protect` attached an active identity
of the store. -/
theorem protect_deactivated_before_role (lib : Lib) (store : Store) (req : Request)
    (token : String) (decoded : Claims) (u : User)
    (ht : tokenPresent (extractToken req.authorization) = some token)
    (hv : lib.verifyToken token = some decoded)
    (hu : store.users.find? (fun x => x._id == decoded.userId) = some u)
    (ha : u.isActive = false) :
    protect lib store req =
        { req := req, nextCalls := 0,
          calls := [.verifyToken token, .userFindById decoded.userId],
          res := some { status := 403, success := false,
                        message := some "Your account has been deactivated",
                        error := none, data := .none } } ∧
      doctorOnly lib store req = protect lib store req ∧
      (doctorOnly lib store req).res ≠
        some (fail 403 "Access denied. Only doctors can access this route.") ∧
      ∀ (l : Lib) (s : Store) (r : Request),
        ((protect l s r).nextCalls = 0 → doctorOnly l s r = protect l s r) ∧
        ((protect l s r).nextCalls ≠ 0 →
          (∃ v ∈ s.users, v.isActive = true ∧
            (protect l s r).req.user = some v.withoutPassword) ∧
          doctorOnly l s r =
            { authorizeDoctor (protect l s r).req with
              calls := (protect l s r).calls ++ (authorizeDoctor (protect l s r).req).calls }) := by
  have key : protect lib store req =
      { req := req, nextCalls := 0,
        calls := [.verifyToken token, .userFindById decoded.userId],
        res := some deactivatedResponse } := by
    simp [protect, ht, hv, Store.findUserById, hu, User.withoutPassword, ha, deactivatedResponse]
  have hd : doctorOnly lib store req = protect lib store req := by
    simp [doctorOnly, chain, key]
  refine ⟨by rw [key]; rfl, hd, ?_, ?_⟩
  · rw [hd, key]
    show some deactivatedResponse ≠ some doctorsOnlyResponse
    decide
  · intro l s r
    refine ⟨?_, ?_⟩
    · intro h0; simp [doctorOnly, chain, h0]
    · intro h1
      exact ⟨protect_next_user l s r h1, by simp [doctorOnly, chain, h1]⟩

/-- C6: each role gate calls `next` (sending nothing) exactly when an identity
is attached and its role tag is the expected one, 'doctor' for
`authorizeDoctor` and 'user' for `authorizeUser`; otherwise it answers 403 with
`success: false` and does not call `next`. A request without identity is
rejected by both, and no request passes both. -/
theorem role_gates (req : Request) :
    (((authorizeDoctor req).nextCalls = 1 ∧ (authorizeDoctor req).res = none) ↔
      ∃ u, req.user = some u ∧ u.userType = "doctor") ∧
    (((authorizeUser req).nextCalls = 1 ∧ (authorizeUser req).res = none) ↔
      ∃ u, req.user = some u ∧ u.userType = "user") ∧
    ((¬ ∃ u, req.user = some u ∧ u.userType = "doctor") →
      (authorizeDoctor req).nextCalls = 0 ∧
      ∃ r, (authorizeDoctor req).res = some r ∧ r.status = 403 ∧ r.success = false) ∧
    ((¬ ∃ u, req.user = some u ∧ u.userType = "user") →
      (authorizeUser req).nextCalls = 0 ∧
      ∃ r, (authorizeUser req).res = some r ∧ r.status = 403 ∧ r.success = false) ∧
    (req.user = none →
      (authorizeDoctor req).nextCalls = 0 ∧ (authorizeUser req).nextCalls = 0 ∧
      (authorizeDoctor req).res =
        some (fail 403 "Access denied. Only doctors can access this route.") ∧
      (authorizeUser req).res =
        some (fail 403 "Access denied. Only patients can access this route.")) ∧
    ¬ ((authorizeDoctor req).nextCalls = 1 ∧ (authorizeUser req).nextCalls = 1) := by
  unfold authorizeDoctor authorizeUser
  cases hu : req.user with
  | none => simp [fail]
  | some u =>
    by_cases hd : u.userType = "doctor"
    · simp [hd, fail]
    · by_cases hp : u.userType = "user"
      · simp [hp, fail]
      · simp [hd, hp, fail]

/-! ## Signup -/

theorem findUserByEmail_isSome (s : Store) (email : String) (u : User)
    (hu : u ∈ s.users) (he : u.email = email) :
    ∃ v, s.findUserByEmail email = some v := by
  unfold Store.findUserByEmail
  cases hf : s.users.find? (fun u => u.email == email) with
  | none =>
    rw [List.find?_eq_none] at hf
    exact absurd (by simpa using he) (hf u hu)
  | some v => exact ⟨_, rfl⟩

theorem findUserByEmail_eq_none (s : Store) (email : String)
    (h : ∀ u ∈ s.users, u.email ≠ email) : s.findUserByEmail email = none := by
  unfold Store.findUserByEmail
  have : s.users.find? (fun u => u.email == email) = none := by
    rw [List.find?_eq_none]
    intro u hu
    simpa using h u hu
  rw [this]; rfl

/-- C7: the signup handler reports the first violated rule only. A missing
(falsy) required field gives the 400 'Please provide all required fields'
whatever the role and the store; otherwise a role other than 'user' and
'doctor' gives the 400 'User type must be ...' whatever the store; in both
cases no call is made, the store is unchanged and the result is the same for
every store. Otherwise a registered email gives 409. -/
theorem signup_first_error (lib : Lib) (now : Nat) (uid did : ObjectId) (store : Store)
    (body : Body) :
    ((body.email.truthy = false ∨ body.password.truthy = false ∨ body.name.truthy = false ∨
        body.userType.truthy = false) →
      signup lib now uid did store body =
        { store := store, calls := [],
          res := { status := 400, success := false,
                   message :=
                     some "Please provide all required fields: email, password, name, userType",
                   error := none, data := .none } } ∧
      ∀ store2, (signup lib now uid did store2 body).res =
        (signup lib now uid did store body).res) ∧
    ((body.email.truthy = true ∧ body.password.truthy = true ∧ body.name.truthy = true ∧
        body.userType.truthy = true) →
      (body.userType ≠ .str "user" ∧ body.userType ≠ .str "doctor") →
      signup lib now uid did store body =
        { store := store, calls := [],
          res := { status := 400, success := false,
                   message := some "User type must be either \"user\" or \"doctor\"",
                   error := none, data := .none } } ∧
      ∀ store2, (signup lib now uid did store2 body).res =
        (signup lib now uid did store body).res) ∧
    ((body.email.truthy = true ∧ body.password.truthy = true ∧ body.name.truthy = true ∧
        body.userType.truthy = true) →
      (body.userType = .str "user" ∨ body.userType = .str "doctor") →
      ∀ email, body.email = .str email →
      (∃ u ∈ store.users, u.email = toLowerCase email) →
      signup lib now uid did store body =
        { store := store, calls := [.userFindOne (toLowerCase email)],
          res := { status := 409, success := false,
                   message := some "User with this email already exists",
                   error := none, data := .none } }) := by
  have hmiss : ∀ s : Store,
      (body.email.truthy = false ∨ body.password.truthy = false ∨ body.name.truthy = false ∨
        body.userType.truthy = false) →
      signup lib now uid did s body =
        { store := s, calls := [],
          res := fail 400
            "Please provide all required fields: email, password, name, userType" } := by
    intro s h
    unfold signup
    rw [if_pos]
    rcases h with h | h | h | h <;> simp [h]
  have hrole : ∀ s : Store,
      (body.email.truthy = true ∧ body.password.truthy = true ∧ body.name.truthy = true ∧
        body.userType.truthy = true) →
      (body.userType ≠ .str "user" ∧ body.userType ≠ .str "doctor") →
      signup lib now uid did s body =
        { store := s, calls := [],
          res := fail 400 "User type must be either \"user\" or \"doctor\"" } := by
    intro s hp hr
    unfold signup
    rw [if_neg (by simp [hp.1, hp.2.1, hp.2.2.1, hp.2.2.2])]
    cases hb : body.userType with
    | str t =>
      have h1 : t ≠ "user" := fun h => hr.1 (by rw [hb, h])
      have h2 : t ≠ "doctor" := fun h => hr.2 (by rw [hb, h])
      simp [h1, h2]
    | undefined => rfl
    | null => rfl
    | bool b => rfl
    | num n => rfl
    | obj => rfl
  refine ⟨?_, ?_, ?_⟩
  · intro h
    refine ⟨by rw [hmiss store h]; rfl, ?_⟩
    intro s2; rw [hmiss s2 h, hmiss store h]
  · intro hp hr
    refine ⟨by rw [hrole store hp hr]; rfl, ?_⟩
    intro s2; rw [hrole s2 hp hr, hrole store hp hr]
  · intro hp hr email he hex
    obtain ⟨u, hu, hue⟩ := hex
    obtain ⟨v, hv⟩ := findUserByEmail_isSome store (toLowerCase email) u hu hue
    unfold signup
    rw [if_neg (by simp [hp.1, hp.2.1, hp.2.2.1, hp.2.2.2])]
    rcases hr with hr | hr <;> simp [hr, he, hv, fail]

/-- C8: when every stored email is lower-case, a signup whose other fields
pass the handler's checks and whose email equals a stored email up to letter
case gets the 409 'User with this email already exists'; the store afterwards
is the store before, the only call is the lookup by email (no `create`, no
token), and the response carries no data. -/
theorem signup_duplicate_email (lib : Lib) (now : Nat) (uid did : ObjectId) (store : Store)
    (body : Body) (email : String)
    (hlow : ∀ u ∈ store.users, toLowerCase u.email = u.email)
    (hemail : body.email = .str email) (hne : email ≠ "")
    (hpw : body.password.truthy = true) (hname : body.name.truthy = true)
    (hrole : body.userType = .str "user" ∨ body.userType = .str "doctor")
    (hdup : ∃ u ∈ store.users, toLowerCase u.email = toLowerCase email) :
    signup lib now uid did store body =
        { store := store, calls := [.userFindOne (toLowerCase email)],
          res := { status := 409, success := false,
                   message := some "User with this email already exists",
                   error := none, data := .none } } ∧
      (signup lib now uid did store body).store = store ∧
      (signup lib now uid did store body).res.data = .none := by
  obtain ⟨u, hu, hue⟩ := hdup
  rw [hlow u hu] at hue
  obtain ⟨v, hv⟩ := findUserByEmail_isSome store (toLowerCase email) u hu hue
  have key : signup lib now uid did store body =
      { store := store, calls := [.userFindOne (toLowerCase email)],
        res := fail 409 "User with this email already exists" } := by
    unfold signup
    have ht : body.userType.truthy = true := by
      rcases hrole with h | h <;> rw [h] <;> decide
    have hte : body.email.truthy = true := by
      rw [hemail]; simp [JsVal.truthy, hne]
    rw [if_neg (by simp [hte, hpw, hname, ht])]
    rcases hrole with hr | hr <;> simp [hr, hemail, hv]
  refine ⟨by rw [key]; rfl, by rw [key], by rw [key]; rfl⟩

theorem createUser_ok (lib : Lib) (now : Nat) (id : ObjectId) (s : Store) (doc : NewUser)
    (hvalid : lib.userSchemaErrors doc = [])
    (hid : ∀ u ∈ s.users, u._id ≠ id) (hemail : ∀ u ∈ s.users, u.email ≠ doc.email) :
    s.createUser lib now id doc =
      .ok (newUser lib now id doc, { s with users := s.users ++ [newUser lib now id doc] }) := by
  unfold Store.createUser
  have h1 : s.users.any (fun u => u._id == id) = false := by
    rw [List.any_eq_false]; intro u hu; simpa using hid u hu
  have h2 : s.users.any (fun u => u.email == doc.email) = false := by
    rw [List.any_eq_false]; intro u hu; simpa using hemail u hu
  simp [hvalid, h1, h2]

theorem placeholder_valid (now : Nat) (id userId : ObjectId) :
    doctorSchemaErrors (placeholderDoctor now id userId) = [] := by
  have h : ("TEMP-" ++ toString now) ≠ "" := by
    intro h
    have := congrArg String.length h
    simp at this
    exact absurd this.1 (by decide)
  simp [doctorSchemaErrors, placeholderDoctor, h]

theorem insertDoctor_placeholder_ok (s : Store) (now : Nat) (id userId : ObjectId)
    (h : ∀ d ∈ s.doctors,
      d._id ≠ id ∧ d.userId ≠ userId ∧ d.licenseNumber ≠ "TEMP-" ++ toString now) :
    s.insertDoctor (placeholderDoctor now id userId) =
      .ok { s with doctors := s.doctors ++ [placeholderDoctor now id userId] } := by
  unfold Store.insertDoctor
  have h1 : s.doctors.any (fun x => x._id == (placeholderDoctor now id userId)._id) = false := by
    rw [List.any_eq_false]; intro d hd; simpa [placeholderDoctor] using (h d hd).1
  have h2 : s.doctors.any
      (fun x => x.userId == (placeholderDoctor now id userId).userId) = false := by
    rw [List.any_eq_false]; intro d hd; simpa [placeholderDoctor] using (h d hd).2.1
  have h3 : s.doctors.any
      (fun x => x.licenseNumber == (placeholderDoctor now id userId).licenseNumber) = false := by
    rw [List.any_eq_false]; intro d hd; simpa [placeholderDoctor] using (h d hd).2.2
  simp [placeholder_valid, h1, h2, h3]

/-- A signup that passes the handler's checks, whose document the user schema
accepts, whose generated ids are new to the store and, for a doctor, whose
temporary license number no stored profile has, is answered 201 with the token
for the new identity; the store gains the identity and, for a doctor only, the
placeholder profile. -/
theorem signup_created (lib : Lib) (now : Nat) (uid did : ObjectId) (store : Store)
    (body : Body) (email role : String)
    (hemail : body.email = .str email) (hne : email ≠ "")
    (hpw : body.password.truthy = true) (hname : body.name.truthy = true)
    (hrole : body.userType = .str role) (hallowed : role = "user" ∨ role = "doctor")
    (hfresh : ∀ u ∈ store.users, u.email ≠ toLowerCase email)
    (hvalid : lib.userSchemaErrors (signupDocument body email role) = [])
    (huid : ∀ u ∈ store.users, u._id ≠ uid)
    (hdoc : role = "doctor" → ∀ d ∈ store.doctors,
      d._id ≠ did ∧ d.userId ≠ uid ∧ d.licenseNumber ≠ "TEMP-" ++ toString now) :
    signup lib now uid did store body =
      { store :=
          { users := store.users ++ [newUser lib now uid (signupDocument body email role)],
            doctors :=
              if role = "doctor" then store.doctors ++ [placeholderDoctor now did uid]
              else store.doctors },
        res := signupSuccess lib (newUser lib now uid (signupDocument body email role)),
        calls :=
          if role = "doctor" then
            [.userFindOne (toLowerCase email), .userCreate (toLowerCase email),
              .doctorCreate uid,
              .generateToken { userId := uid, email := toLowerCase email, userType := role }]
          else
            [.userFindOne (toLowerCase email), .userCreate (toLowerCase email),
              .generateToken { userId := uid, email := toLowerCase email, userType := role }] } := by
  have hte : body.email.truthy = true := by rw [hemail]; simp [JsVal.truthy, hne]
  have hrne : role ≠ "" := by rcases hallowed with h | h <;> rw [h] <;> decide
  have htr : body.userType.truthy = true := by rw [hrole]; simp [JsVal.truthy, hrne]
  have hfind := findUserByEmail_eq_none store (toLowerCase email) hfresh
  have hcreate := createUser_ok lib now uid store (signupDocument body email role) hvalid huid
    (by simpa [signupDocument] using hfresh)
  unfold signup
  rw [if_neg (by simp [hte, hpw, hname, htr])]
  simp only [hrole, hemail, hallowed, if_true, hfind, hcreate]
  by_cases hd : role = "doctor"
  · have hins := insertDoctor_placeholder_ok
      { store with users := store.users ++ [newUser lib now uid (signupDocument body email role)] }
      now did uid (hdoc hd)
    simp only [hd, if_true] at hins ⊢
    simp only [newUser, signupDocument] at hins ⊢
    simp [hins]
  · simp [hd, newUser, signupDocument]

/-- A doctor signup that passes the handler's checks and the user schema, at a
clock value whose temporary license number a stored profile already has, is
answered 500; the identity stays in the store without a profile. -/
theorem signup_license_taken (lib : Lib) (now : Nat) (uid did : ObjectId) (store : Store)
    (body : Body) (email : String)
    (hemail : body.email = .str email) (hne : email ≠ "")
    (hpw : body.password.truthy = true) (hname : body.name.truthy = true)
    (hrole : body.userType = .str "doctor")
    (hfresh : ∀ u ∈ store.users, u.email ≠ toLowerCase email)
    (hvalid : lib.userSchemaErrors (signupDocument body email "doctor") = [])
    (huid : ∀ u ∈ store.users, u._id ≠ uid)
    (hids : ∀ d ∈ store.doctors, d._id ≠ did ∧ d.userId ≠ uid)
    (htaken : ∃ d ∈ store.doctors, d.licenseNumber = "TEMP-" ++ toString now) :
    (signup lib now uid did store body).res.status = 500 ∧
    (signup lib now uid did store body).res.data = .none ∧
    (signup lib now uid did store body).store =
      { users := store.users ++ [newUser lib now uid (signupDocument body email "doctor")],
        doctors := store.doctors } := by
  have hte : body.email.truthy = true := by rw [hemail]; simp [JsVal.truthy, hne]
  have htr : body.userType.truthy = true := by rw [hrole]; decide
  have hfind := findUserByEmail_eq_none store (toLowerCase email) hfresh
  have hcreate := createUser_ok lib now uid store (signupDocument body email "doctor") hvalid
    huid (by simpa [signupDocument] using hfresh)
  have hins : Store.insertDoctor
      { store with
        users := store.users ++ [newUser lib now uid (signupDocument body email "doctor")] }
      (placeholderDoctor now did uid) = .error (.duplicateKey "licenseNumber_1") := by
    unfold Store.insertDoctor
    have h1 : store.doctors.any
        (fun x => x._id == (placeholderDoctor now did uid)._id) = false := by
      rw [List.any_eq_false]; intro d hd; simpa [placeholderDoctor] using (hids d hd).1
    have h2 : store.doctors.any
        (fun x => x.userId == (placeholderDoctor now did uid).userId) = false := by
      rw [List.any_eq_false]; intro d hd; simpa [placeholderDoctor] using (hids d hd).2
    have h3 : store.doctors.any
        (fun x => x.licenseNumber == (placeholderDoctor now did uid).licenseNumber) = true := by
      obtain ⟨d, hd, hl⟩ := htaken
      rw [List.any_eq_true]
      exact ⟨d, hd, by simpa [placeholderDoctor] using hl⟩
    simp [placeholder_valid, h1, h2, h3]
  unfold signup
  rw [if_neg (by simp [hte, hpw, hname, htr])]
  simp only [hrole, hemail, true_or, or_true, if_true, hfind, hcreate]
  simp only [newUser, signupDocument] at hins ⊢
  simp [hins, signupCatch]

/-- C9: a second doctor signing up at the clock value of a first one sends all
required fields, an allowed role and an email no stored identity has, the user
schema accepts the document and the generated ids are new; the handler answers
500 'Internal server error' with no token and never calls `generateToken`,
where the specification has 201. One clock tick later the same request is answered
201 with its token. -/
theorem signup_same_clock_500 :
    (∀ u ∈ storeAfterFirstDoctor.users, u.email ≠ toLowerCase "dr.b@x.org") ∧
    (∀ u ∈ storeAfterFirstDoctor.users, u._id ≠ 3) ∧
    (∀ d ∈ storeAfterFirstDoctor.doctors, d._id ≠ 4 ∧ d.userId ≠ 3) ∧
    sampleLib.userSchemaErrors
      (signupDocument (signupBody "dr.b@x.org" "DoctorPass123!" "Dr. B" "doctor")
        "dr.b@x.org" "doctor") = [] ∧
    secondDoctorSignup.res.status = 500 ∧
    secondDoctorSignup.res.success = false ∧
    secondDoctorSignup.res.message = some "Internal server error" ∧
    secondDoctorSignup.res.data = .none ∧
    secondDoctorSignup.calls =
      [.userFindOne "dr.b@x.org", .userCreate "dr.b@x.org", .doctorCreate 3] ∧
    (signup sampleLib 1700000000001 3 4 storeAfterFirstDoctor
      (signupBody "dr.b@x.org" "DoctorPass123!" "Dr. B" "doctor")).res.status = 201 := by
  decide

/-- C10: after a second doctor signed up at the clock value of a first one, the
store holds the new doctor-role identity (id 3) and no practitioner profile
whose `userId` is 3, where the specification has exactly one: the only profile is the
first doctor's, which holds the license number 'TEMP-1700000000000'. One clock
tick later the same request leaves exactly the placeholder profile. -/
theorem signup_same_clock_no_profile :
    secondDoctorSignup.store.users.map (fun u => (u._id, u.email, u.userType)) =
      [(1, "dr.a@x.org", "doctor"), (3, "dr.b@x.org", "doctor")] ∧
    secondDoctorSignup.store.doctors.filter (fun d => d.userId == 3) = [] ∧
    secondDoctorSignup.store.doctors.map (fun d => (d.userId, d.licenseNumber)) =
      [(1, "TEMP-1700000000000")] ∧
    (signup sampleLib 1700000000001 3 4 storeAfterFirstDoctor
      (signupBody "dr.b@x.org" "DoctorPass123!" "Dr. B" "doctor")).store.doctors.filter
        (fun d => d.userId == 3) = [placeholderDoctor 1700000000001 4 3] := by
  decide

/-! ## Instances on the sample values -/

theorem protect_next_iff_witness :
    (protect sampleLib sampleStore (requestWith (some "Bearer jwt-7"))).nextCalls = 1 ∧
    (protect sampleLib sampleStore (requestWith (some "Bearer jwt-7"))).res = none ∧
    (protect sampleLib sampleStore (requestWith (some "Bearer jwt-7"))).req =
      { requestWith (some "Bearer jwt-7") with user := some sampleAnn.withoutPassword } :=
  have h := (protect_next_iff sampleLib sampleStore (requestWith (some "Bearer jwt-7"))).2.1
    "jwt-7" { userId := 7, email := "ann@x.org", userType := "user" } sampleAnn
    (by decide) (by decide) (by decide) (by decide)
  ⟨h.2.2.2.2.1, h.2.2.2.2.2, h.2.2.1⟩

theorem protect_no_credential_witness :
    startsWith "Basic YWxhZGRpbg==" "Bearer" = false ∧
    (protect sampleLib sampleStore (requestWith (some "Basic YWxhZGRpbg=="))).res =
      some (fail 401 "Not authorized to access this route. No token provided.") ∧
    (protect sampleLib sampleStore (requestWith (some "Basic YWxhZGRpbg=="))).calls = [] :=
  have h := (protect_no_credential sampleLib sampleStore (requestWith (some "Basic YWxhZGRpbg=="))
    (Or.inr ⟨"Basic YWxhZGRpbg==", rfl, by decide⟩)).1
  ⟨by decide, by rw [h]; rfl, by rw [h]⟩

theorem protect_invalid_token_witness :
    tokenPresent (extractToken (requestWith (some "Bearer bogus")).authorization) =
      some "bogus" ∧
    sampleLib.verifyToken "bogus" = none ∧
    (protect sampleLib sampleStore (requestWith (some "Bearer bogus"))).res =
      some (fail 401 "Invalid or expired token") ∧
    protect sampleLib { users := [], doctors := [] } (requestWith (some "Bearer bogus")) =
      protect sampleLib sampleStore (requestWith (some "Bearer bogus")) :=
  have h := protect_invalid_token sampleLib sampleStore (requestWith (some "Bearer bogus"))
    "bogus" (by decide) (by decide)
  ⟨by decide, by decide, by rw [h.1]; rfl, h.2 _⟩

theorem protect_user_not_found_witness :
    sampleLib.verifyToken "jwt-9" =
      some { userId := 9, email := "gone@x.org", userType := "user" } ∧
    (∀ u ∈ sampleStore.users, u._id ≠ 9) ∧
    (protect sampleLib sampleStore (requestWith (some "Bearer jwt-9"))).res =
      some (fail 404 "User not found") ∧
    (protect sampleLib sampleStore (requestWith (some "Bearer jwt-9"))).nextCalls = 0 :=
  have h := (protect_user_not_found sampleLib sampleStore (requestWith (some "Bearer jwt-9"))
    "jwt-9" { userId := 9, email := "gone@x.org", userType := "user" }
    (by decide) (by decide) (by decide)).1
  ⟨by decide, by decide, by rw [h]; rfl, by rw [h]⟩

theorem protect_deactivated_before_role_witness :
    sampleBob.isActive = false ∧ sampleBob.userType = "doctor" ∧
    (doctorOnly sampleLib sampleStore (requestWith (some "Bearer jwt-8"))).res =
      some (fail 403 "Your account has been deactivated") ∧
    (doctorOnly sampleLib sampleStore (requestWith (some "Bearer jwt-8"))).nextCalls = 0 :=
  have h := protect_deactivated_before_role sampleLib sampleStore
    (requestWith (some "Bearer jwt-8")) "jwt-8"
    { userId := 8, email := "bob@x.org", userType := "doctor" } sampleBob
    (by decide) (by decide) (by decide) (by decide)
  ⟨by decide, by decide, by rw [h.2.1, h.1]; rfl, by rw [h.2.1, h.1]⟩

theorem role_gates_witness :
    (authorizeUser { requestWith none with user := some sampleAnn }).nextCalls = 1 ∧
    (authorizeDoctor { requestWith none with user := some sampleAnn }).nextCalls = 0 ∧
    (authorizeDoctor (requestWith none)).res =
      some (fail 403 "Access denied. Only doctors can access this route.") :=
  ⟨((role_gates { requestWith none with user := some sampleAnn }).2.1.2
      ⟨sampleAnn, rfl, by decide⟩).1,
    ((role_gates { requestWith none with user := some sampleAnn }).2.2.1
      (by decide)).1,
    ((role_gates (requestWith none)).2.2.2.2.1 rfl).2.2.1⟩

theorem signup_first_error_witness :
    (signup sampleLib 10 20 21 sampleStore
        { signupBody "ann@x.org" "" "Ann" "admin" with password := .undefined }).res =
      fail 400 "Please provide all required fields: email, password, name, userType" ∧
    (signup sampleLib 10 20 21 sampleStore (signupBody "ann@x.org" "pw" "Ann" "admin")).res =
      fail 400 "User type must be either \"user\" or \"doctor\"" ∧
    (signup sampleLib 10 20 21 sampleStore (signupBody "ann@x.org" "pw" "Ann" "user")).res =
      fail 409 "User with this email already exists" :=
  ⟨by
      rw [((signup_first_error sampleLib 10 20 21 sampleStore
        { signupBody "ann@x.org" "" "Ann" "admin" with password := .undefined }).1
        (Or.inr (Or.inl rfl))).1]
      rfl,
    by
      rw [((signup_first_error sampleLib 10 20 21 sampleStore
        (signupBody "ann@x.org" "pw" "Ann" "admin")).2.1
        (by decide) (by decide)).1]
      rfl,
    by
      rw [(signup_first_error sampleLib 10 20 21 sampleStore
        (signupBody "ann@x.org" "pw" "Ann" "user")).2.2
        (by decide) (by decide) "ann@x.org" rfl ⟨sampleAnn, by decide, by decide⟩]
      rfl⟩

theorem signup_duplicate_email_witness :
    (∀ u ∈ sampleStore.users, toLowerCase u.email = u.email) ∧
    toLowerCase sampleAnn.email = toLowerCase "Ann@X.org" ∧
    (signup sampleLib 10 20 21 sampleStore (signupBody "Ann@X.org" "pw" "Ann" "user")).res =
      fail 409 "User with this email already exists" ∧
    (signup sampleLib 10 20 21 sampleStore (signupBody "Ann@X.org" "pw" "Ann" "user")).store =
      sampleStore :=
  have h := signup_duplicate_email sampleLib 10 20 21 sampleStore
    (signupBody "Ann@X.org" "pw" "Ann" "user") "Ann@X.org"
    (by decide) rfl (by decide) (by decide) (by decide) (Or.inl rfl)
    ⟨sampleAnn, by decide, by decide⟩
  ⟨by decide, by decide, by rw [h.1]; rfl, h.2.1⟩

theorem signup_created_instance :
    (signup sampleLib 10 20 21 sampleStore (signupBody "Cy@x.org" "pw" "Cy" "doctor")).res =
      signupSuccess sampleLib
        (newUser sampleLib 10 20
          (signupDocument (signupBody "Cy@x.org" "pw" "Cy" "doctor") "Cy@x.org" "doctor")) ∧
    (signup sampleLib 10 20 21 sampleStore (signupBody "Cy@x.org" "pw" "Cy" "doctor")).store.doctors =
      [placeholderDoctor 10 21 20] := by
  have h := signup_created sampleLib 10 20 21 sampleStore
    (signupBody "Cy@x.org" "pw" "Cy" "doctor") "Cy@x.org" "doctor"
    rfl (by decide) (by decide) (by decide) rfl (Or.inr rfl) (by decide) rfl (by decide)
    (by decide)
  rw [h]
  exact ⟨rfl, rfl⟩

theorem signup_license_taken_instance :
    (signup sampleLib 1700000000000 3 4 storeAfterFirstDoctor
      (signupBody "dr.b@x.org" "DoctorPass123!" "Dr. B" "doctor")).res.status = 500 :=
  (signup_license_taken sampleLib 1700000000000 3 4 storeAfterFirstDoctor
    (signupBody "dr.b@x.org" "DoctorPass123!" "Dr. B" "doctor") "dr.b@x.org"
    rfl (by decide) (by decide) (by decide) rfl (by decide) rfl (by decide) (by decide)
    (by decide)).1

/-! ## Login -/

/-- C11: a login with both fields present whose lower-cased email finds a
deactivated identity is answered 403 'Your account has been deactivated.
Please contact support.' with no data and so no token; the only call is the
lookup by email, `comparePassword` is not called, and the result is the same
whatever the password check of the user model would say. -/
theorem login_deactivated (lib : Lib) (store : Store) (body : Body) (email : String)
    (u : User)
    (hemail : body.email = .str email) (hne : email ≠ "")
    (hpw : body.password.truthy = true)
    (hu : store.users.find? (fun x => x.email == toLowerCase email) = some u)
    (ha : u.isActive = false) :
    login lib store body =
        { store := store, calls := [.userFindOne (toLowerCase email)],
          res := { status := 403, success := false,
                   message := some "Your account has been deactivated. Please contact support.",
                   error := none, data := .none } } ∧
      (login lib store body).res.data = .none ∧
      (∀ id, Call.comparePassword id ∉ (login lib store body).calls) ∧
      ∀ lib2 : Lib, login lib2 store body = login lib store body := by
  have hte : body.email.truthy = true := by rw [hemail]; simp [JsVal.truthy, hne]
  have key : ∀ l : Lib, login l store body =
      { store := store, calls := [.userFindOne (toLowerCase email)],
        res := fail 403 "Your account has been deactivated. Please contact support." } := by
    intro l
    unfold login
    rw [if_neg (by simp [hte, hpw])]
    simp [hemail, hu, ha]
  refine ⟨by rw [key]; rfl, by rw [key]; rfl, ?_, ?_⟩
  · intro id; rw [key]; simp
  · intro l2; rw [key, key]

/-- C12: a login whose email no identity has and a login whose email finds an
active identity but whose password fails `comparePassword` get the same
response, 401 'Invalid email or password' with the same body. -/
theorem login_failures_alike (lib : Lib) (store : Store) (b1 b2 : Body) (e1 e2 : String)
    (u : User) (hash : String)
    (h1e : b1.email = .str e1) (h1n : e1 ≠ "") (h1p : b1.password.truthy = true)
    (h1u : ∀ x ∈ store.users, x.email ≠ toLowerCase e1)
    (h2e : b2.email = .str e2) (h2n : e2 ≠ "") (h2p : b2.password.truthy = true)
    (h2u : store.users.find? (fun x => x.email == toLowerCase e2) = some u)
    (h2a : u.isActive = true) (h2h : u.password = some hash)
    (h2c : lib.comparePassword b2.password hash = false) :
    (login lib store b1).res = (login lib store b2).res ∧
      (login lib store b1).res =
        { status := 401, success := false, message := some "Invalid email or password",
          error := none, data := .none } := by
  have ht1 : b1.email.truthy = true := by rw [h1e]; simp [JsVal.truthy, h1n]
  have ht2 : b2.email.truthy = true := by rw [h2e]; simp [JsVal.truthy, h2n]
  have hf : store.users.find? (fun x => x.email == toLowerCase e1) = none := by
    rw [List.find?_eq_none]; intro x hx; simpa using h1u x hx
  have k1 : (login lib store b1).res = fail 401 "Invalid email or password" := by
    unfold login
    rw [if_neg (by simp [ht1, h1p])]
    simp [h1e, hf]
  have k2 : (login lib store b2).res = fail 401 "Invalid email or password" := by
    unfold login
    rw [if_neg (by simp [ht2, h2p])]
    simp [h2e, h2u, h2a, h2h, h2c]
  exact ⟨by rw [k1, k2], by rw [k1]; rfl⟩

/-- C13: a login whose lower-cased email finds an active identity and whose
password passes `comparePassword` against the stored hash is answered 200 with
`success: true`, the user object of that identity and the token generated for
its id, stored email and role; the store is unchanged, and the same holds for
the email in any other letter case. A login with email or password missing or
empty is answered 400 'Please provide email and password' with no call made. -/
theorem login_success (lib : Lib) (store : Store) (body : Body) (email : String)
    (u : User) (hash : String)
    (hemail : body.email = .str email) (hne : email ≠ "")
    (hpw : body.password.truthy = true)
    (hu : store.users.find? (fun x => x.email == toLowerCase email) = some u)
    (ha : u.isActive = true) (hh : u.password = some hash)
    (hc : lib.comparePassword body.password hash = true) :
    (login lib store body).res =
        { status := 200, success := true, message := some "Login successful", error := none,
          data := .auth
            (loginUserResponse u
              (if u.userType = "doctor" then store.findDoctorByUserId u._id else none))
            (lib.generateToken { userId := u._id, email := u.email, userType := u.userType }) } ∧
      (login lib store body).store = store ∧
      (∀ (b2 : Body) (e2 : String), b2.email = .str e2 → e2 ≠ "" →
        toLowerCase e2 = toLowerCase email → b2.password = body.password →
        login lib store b2 = login lib store body) ∧
      ∀ b : Body, (b.email.truthy = false ∨ b.password.truthy = false) →
        login lib store b =
          { store := store, calls := [],
            res := { status := 400, success := false,
                     message := some "Please provide email and password",
                     error := none, data := .none } } := by
  have hte : body.email.truthy = true := by rw [hemail]; simp [JsVal.truthy, hne]
  refine ⟨?_, ?_, ?_, ?_⟩
  · unfold login
    rw [if_neg (by simp [hte, hpw])]
    by_cases hd : u.userType = "doctor" <;> simp [hemail, hu, ha, hh, hc, hd]
  · unfold login
    rw [if_neg (by simp [hte, hpw])]
    by_cases hd : u.userType = "doctor" <;> simp [hemail, hu, ha, hh, hc, hd]
  · intro b2 e2 h2e h2n h2l h2p
    have ht2 : b2.email.truthy = true := by rw [h2e]; simp [JsVal.truthy, h2n]
    unfold login
    rw [if_neg (by simp [ht2, h2p, hpw]), if_neg (by simp [hte, hpw])]
    simp only [h2e, hemail, h2l, h2p]
  · intro b hb
    unfold login
    rw [if_pos (by rcases hb with h | h <;> simp [h])]
    rfl

/-! ## The password hash and the responses -/

theorem find_withoutPassword (l : List User) (p : User → Bool)
    (hp : ∀ u, p u.withoutPassword = p u) :
    (l.map User.withoutPassword).find? p = (l.find? p).map User.withoutPassword := by
  induction l with
  | nil => rfl
  | cons a l ih =>
    simp only [List.map_cons, List.find?_cons, hp]
    cases p a <;> simp [ih]

theorem any_withoutPassword (l : List User) (p : User → Bool)
    (hp : ∀ u, p u.withoutPassword = p u) :
    (l.map User.withoutPassword).any p = l.any p := by
  induction l with
  | nil => rfl
  | cons a l ih => simp [List.any_cons, hp, ih]

theorem sameButHashes_find (s1 s2 : Store) (h : s1.sameButHashes s2) (p : User → Bool)
    (hp : ∀ u, p u.withoutPassword = p u) :
    (s1.users.find? p).map User.withoutPassword =
      (s2.users.find? p).map User.withoutPassword := by
  rw [← find_withoutPassword _ _ hp, ← find_withoutPassword _ _ hp, h.1]

theorem sameButHashes_any (s1 s2 : Store) (h : s1.sameButHashes s2) (p : User → Bool)
    (hp : ∀ u, p u.withoutPassword = p u) : s1.users.any p = s2.users.any p := by
  rw [← any_withoutPassword _ _ hp, ← any_withoutPassword s2.users _ hp, h.1]

theorem createUser_congr (lib : Lib) (now : Nat) (id : ObjectId) (s1 s2 : Store)
    (doc : NewUser) (h : s1.sameButHashes s2) :
    (∃ e, s1.createUser lib now id doc = .error e ∧ s2.createUser lib now id doc = .error e) ∨
    (s1.createUser lib now id doc =
        .ok (newUser lib now id doc, { s1 with users := s1.users ++ [newUser lib now id doc] }) ∧
      s2.createUser lib now id doc =
        .ok (newUser lib now id doc, { s2 with users := s2.users ++ [newUser lib now id doc] })) := by
  have hid : s1.users.any (fun u => u._id == id) = s2.users.any (fun u => u._id == id) :=
    sameButHashes_any s1 s2 h _ (fun _ => rfl)
  have hem : s1.users.any (fun u => u.email == doc.email) =
      s2.users.any (fun u => u.email == doc.email) :=
    sameButHashes_any s1 s2 h _ (fun _ => rfl)
  unfold Store.createUser
  rw [hid, hem]
  split_ifs
  · exact Or.inl ⟨_, rfl, rfl⟩
  · exact Or.inl ⟨_, rfl, rfl⟩
  · exact Or.inl ⟨_, rfl, rfl⟩
  · exact Or.inr ⟨rfl, rfl⟩

theorem insertDoctor_congr (s1 s2 : Store) (d : Doctor) (h : s1.doctors = s2.doctors) :
    (∃ e, s1.insertDoctor d = .error e ∧ s2.insertDoctor d = .error e) ∨
    (s1.insertDoctor d = .ok { s1 with doctors := s1.doctors ++ [d] } ∧
      s2.insertDoctor d = .ok { s2 with doctors := s2.doctors ++ [d] }) := by
  unfold Store.insertDoctor
  rw [h]
  split_ifs
  · exact Or.inl ⟨_, rfl, rfl⟩
  · exact Or.inl ⟨_, rfl, rfl⟩
  · exact Or.inl ⟨_, rfl, rfl⟩
  · exact Or.inl ⟨_, rfl, rfl⟩
  · exact Or.inr ⟨rfl, rfl⟩

/-- The response of the signup handler is the same on two stores that differ
in stored password hashes only. -/
theorem signup_res_congr (lib : Lib) (now : Nat) (uid did : ObjectId) (s1 s2 : Store)
    (body : Body) (h : s1.sameButHashes s2) :
    (signup lib now uid did s1 body).res = (signup lib now uid did s2 body).res := by
  have hfind : ∀ e, s1.findUserByEmail e = s2.findUserByEmail e := fun e =>
    sameButHashes_find s1 s2 h _ (fun _ => rfl)
  unfold signup
  by_cases h0 : (!body.email.truthy || !body.password.truthy || !body.name.truthy ||
      !body.userType.truthy) = true
  · rw [if_pos h0, if_pos h0]
  · rw [if_neg h0, if_neg h0]
    cases body.userType with
    | str role =>
      dsimp only
      by_cases hr : role = "user" ∨ role = "doctor"
      · rw [if_pos hr, if_pos hr]
        cases body.email with
        | str email =>
          dsimp only
          rw [hfind]
          cases s2.findUserByEmail (toLowerCase email) with
          | some v => rfl
          | none =>
            dsimp only
            rcases createUser_congr lib now uid s1 s2 (signupDocument body email role) h with
              ⟨e, e1, e2⟩ | ⟨e1, e2⟩
            · rw [e1, e2]
            · rw [e1, e2]
              dsimp only
              by_cases hdoc : role = "doctor"
              · rw [if_pos hdoc, if_pos hdoc]
                rcases insertDoctor_congr
                    { s1 with users :=
                        s1.users ++ [newUser lib now uid (signupDocument body email role)] }
                    { s2 with users :=
                        s2.users ++ [newUser lib now uid (signupDocument body email role)] }
                    (placeholderDoctor now did
                      (newUser lib now uid (signupDocument body email role))._id) h.2 with
                  ⟨e, d1, d2⟩ | ⟨d1, d2⟩
                · rw [d1, d2]
                · rw [d1, d2]
              · rw [if_neg hdoc, if_neg hdoc]
        | undefined => rfl
        | null => rfl
        | bool b => rfl
        | num n => rfl
        | obj => rfl
      · rw [if_neg hr, if_neg hr]
    | undefined => rfl
    | null => rfl
    | bool b => rfl
    | num n => rfl
    | obj => rfl

/-- The 200 response of the login handler, as a function of the identity found. -/
theorem login_ok_inv (lib : Lib) (s : Store) (body : Body)
    (h : (login lib s body).res.status = 200) :
    ∃ email u, body.email = .str email ∧
      s.users.find? (fun x => x.email == toLowerCase email) = some u ∧
      (login lib s body).res =
        { status := 200, success := true, message := some "Login successful", error := none,
          data := .auth
            (loginUserResponse u
              (if u.userType = "doctor" then s.findDoctorByUserId u._id else none))
            (lib.generateToken { userId := u._id, email := u.email, userType := u.userType }) } := by
  unfold login at h ⊢
  by_cases h0 : (!body.email.truthy || !body.password.truthy) = true
  · rw [if_pos h0] at h; simp [fail] at h
  · rw [if_neg h0] at h ⊢
    cases he : body.email with
    | str email =>
      rw [he] at h
      dsimp only at h ⊢
      cases hu : s.users.find? (fun x => x.email == toLowerCase email) with
      | none => rw [hu] at h; simp [fail] at h
      | some u =>
        rw [hu] at h
        dsimp only at h ⊢
        refine ⟨email, u, rfl, hu, ?_⟩
        by_cases ha : (!u.isActive) = true
        · rw [if_pos ha] at h; simp [fail] at h
        · rw [if_neg ha] at h ⊢
          cases hp : u.password with
          | none => rw [hp] at h; simp [serverError] at h
          | some hash =>
            rw [hp] at h
            dsimp only at h ⊢
            by_cases hc : (!lib.comparePassword body.password hash) = true
            · rw [if_pos hc] at h; simp [fail] at h
            · rw [if_neg hc]
              by_cases hd : u.userType = "doctor"
              · rw [if_pos hd, if_pos hd]
              · rw [if_neg hd, if_neg hd]
    | undefined => rw [he] at h; simp [serverError] at h
    | null => rw [he] at h; simp [serverError] at h
    | bool b => rw [he] at h; simp [serverError] at h
    | num n => rw [he] at h; simp [serverError] at h
    | obj => rw [he] at h; simp [serverError] at h

/-- Two successful logins on stores that differ in stored hashes only send the
same response. -/
theorem login_res_congr (lib : Lib) (s1 s2 : Store) (body : Body) (h : s1.sameButHashes s2)
    (h1 : (login lib s1 body).res.status = 200) (h2 : (login lib s2 body).res.status = 200) :
    (login lib s1 body).res = (login lib s2 body).res := by
  obtain ⟨e1, u1, he1, hu1, r1⟩ := login_ok_inv lib s1 body h1
  obtain ⟨e2, u2, he2, hu2, r2⟩ := login_ok_inv lib s2 body h2
  have hee : e1 = e2 := by
    rw [he1] at he2
    exact JsVal.str.inj he2
  subst hee
  have hw : u1.withoutPassword = u2.withoutPassword := by
    have := sameButHashes_find s1 s2 h (fun x => x.email == toLowerCase e1) (fun _ => rfl)
    rw [hu1, hu2] at this
    simpa using this
  have hid : u1._id = u2._id := by
    have := congrArg User._id hw; exact this
  have hem : u1.email = u2.email := by
    have := congrArg User.email hw; exact this
  have hty : u1.userType = u2.userType := by
    have := congrArg User.userType hw; exact this
  have hresp : ∀ d, loginUserResponse u1 d = loginUserResponse u2 d := by
    intro d
    have a1 : loginUserResponse u1 d = loginUserResponse u1.withoutPassword d := rfl
    have a2 : loginUserResponse u2 d = loginUserResponse u2.withoutPassword d := rfl
    rw [a1, a2, hw]
  rw [r1, r2, hresp, hid, hem, hty]
  simp only [Store.findDoctorByUserId, h.2]

/-- The response of `/auth/me` is the same on two stores that differ in stored
password hashes only. -/
theorem me_res_congr (lib : Lib) (s1 s2 : Store) (req : Request) (h : s1.sameButHashes s2) :
    (meRoute lib s1 req).res = (meRoute lib s2 req).res := by
  have hp : protect lib s1 req = protect lib s2 req := by
    have hf : ∀ id, s1.findUserById id = s2.findUserById id := fun id =>
      sameButHashes_find s1 s2 h _ (fun _ => rfl)
    unfold protect
    simp only [hf]
  have hm : ∀ r, (me s1 r).res = (me s2 r).res := by
    intro r
    unfold me
    cases r.user with
    | none => rfl
    | some u =>
      dsimp only
      by_cases hd : u.userType = "doctor"
      · rw [if_pos hd, if_pos hd]
        simp only [Store.findDoctorByUserId, h.2]
      · rw [if_neg hd, if_neg hd]
  unfold meRoute route
  rw [hp]
  cases (protect lib s2 req).res with
  | some r => rfl
  | none => exact hm _

/-- C14: the user objects of the signup, login and `/auth/me` responses are
built from the identity without its password, and on two stores that differ in
stored password hashes only the three routes answer alike: signup and
`/auth/me` send the same response for every request, and two logins that both
succeed send the same response, token included. -/
theorem hash_not_in_responses (lib : Lib) (s1 s2 : Store) (h : s1.sameButHashes s2) :
    (∀ u, signupSuccess lib u = signupSuccess lib u.withoutPassword) ∧
    (∀ u d, loginUserResponse u d = loginUserResponse u.withoutPassword d) ∧
    (∀ u d, meUserResponse u d = meUserResponse u.withoutPassword d) ∧
    (∀ now uid did body,
      (signup lib now uid did s1 body).res = (signup lib now uid did s2 body).res) ∧
    (∀ body, (login lib s1 body).res.status = 200 → (login lib s2 body).res.status = 200 →
      (login lib s1 body).res = (login lib s2 body).res) ∧
    (∀ req, (meRoute lib s1 req).res = (meRoute lib s2 req).res) :=
  ⟨fun _ => rfl, fun _ _ => rfl, fun _ _ => rfl,
    fun now uid did body => signup_res_congr lib now uid did s1 s2 body h,
    fun body h1 h2 => login_res_congr lib s1 s2 body h h1 h2,
    fun req => me_res_congr lib s1 s2 req h⟩

theorem hash_not_in_responses_witness :
    sampleStore.sameButHashes sampleStoreRehashed ∧
    sampleStore ≠ sampleStoreRehashed ∧
    (login sampleLib sampleStore (loginBody "ann@x.org" "secret")).res.status = 200 ∧
    (login sampleLib sampleStore (loginBody "ann@x.org" "secret")).res =
      (login sampleLib sampleStoreRehashed (loginBody "ann@x.org" "secret")).res ∧
    (meRoute sampleLib sampleStore (requestWith (some "Bearer jwt-7"))).res =
      (meRoute sampleLib sampleStoreRehashed (requestWith (some "Bearer jwt-7"))).res :=
  have hs : sampleStore.sameButHashes sampleStoreRehashed := ⟨by decide, by decide⟩
  have h := hash_not_in_responses sampleLib sampleStore sampleStoreRehashed hs
  ⟨hs, by decide, by decide, h.2.2.2.2.1 _ (by decide) (by decide), h.2.2.2.2.2 _⟩

theorem login_deactivated_witness :
    sampleStore.users.find? (fun x => x.email == toLowerCase "Bob@x.org") = some sampleBob ∧
    sampleBob.isActive = false ∧
    (login sampleLib sampleStore (loginBody "Bob@x.org" "secret")).res =
      fail 403 "Your account has been deactivated. Please contact support." ∧
    (login sampleLib sampleStore (loginBody "Bob@x.org" "secret")).calls =
      [.userFindOne "bob@x.org"] :=
  have h := (login_deactivated sampleLib sampleStore (loginBody "Bob@x.org" "secret")
    "Bob@x.org" sampleBob rfl (by decide) (by decide) (by decide) (by decide)).1
  ⟨by decide, by decide, by rw [h]; rfl, by rw [h]; rfl⟩

theorem login_failures_alike_witness :
    (∀ x ∈ sampleStore.users, x.email ≠ toLowerCase "nobody@x.org") ∧
    strictLib.comparePassword (loginBody "ann@x.org" "wrong").password "$2a$10$hash" = false ∧
    (login strictLib sampleStore (loginBody "nobody@x.org" "secret")).res =
      (login strictLib sampleStore (loginBody "ann@x.org" "wrong")).res :=
  ⟨by decide, by decide,
    (login_failures_alike strictLib sampleStore (loginBody "nobody@x.org" "secret")
      (loginBody "ann@x.org" "wrong") "nobody@x.org" "ann@x.org" sampleAnn "$2a$10$hash"
      rfl (by decide) (by decide) (by decide) rfl (by decide) (by decide) (by decide)
      (by decide) rfl (by decide)).1⟩

theorem login_success_witness :
    strictLib.comparePassword (loginBody "ANN@x.org" "secret").password "$2a$10$hash" = true ∧
    (login strictLib sampleStore (loginBody "ANN@x.org" "secret")).res.status = 200 ∧
    (login strictLib sampleStore (loginBody "ANN@x.org" "secret")).res.data =
      .auth (loginUserResponse sampleAnn none) "jwt-7" ∧
    (login strictLib sampleStore (loginBody "ANN@x.org" "secret")).store = sampleStore :=
  have h := login_success strictLib sampleStore (loginBody "ANN@x.org" "secret") "ANN@x.org"
    sampleAnn "$2a$10$hash" rfl (by decide) (by decide) (by decide) (by decide) rfl
    (by decide)
  ⟨by decide, by rw [h.1], by rw [h.1]; rfl, h.2.1⟩

/-! ## Profile update -/

theorem find_after_save (l : List Doctor) (d saved : Doctor) (uid : ObjectId)
    (hf : l.find? (fun x => x.userId == uid) = some d) (hs : saved.userId = uid) :
    (l.map (fun x => if x._id == d._id then saved else x)).find?
      (fun x => x.userId == uid) = some saved := by
  induction l with
  | nil => simp at hf
  | cons a l ih =>
    simp only [List.map_cons, List.find?_cons] at hf ⊢
    by_cases hid : (a._id == d._id) = true
    · simp [hid, hs]
    · by_cases hau : (a.userId == uid) = true
      · rw [hau] at hf
        simp only [Option.some.injEq] at hf
        subst hf
        simp at hid
      · have hid2 : (a._id == d._id) = false := by simpa using hid
        have hau2 : (a.userId == uid) = false := by simpa using hau
        simp only [hau2] at hf
        simp only [hid2, Bool.false_eq_true, if_false, hau2]
        exact ih hf

theorem savedDoctor_eq (now : Nat) (old new : Doctor) :
    savedDoctor now old new = { new with updatedAt := (savedDoctor now old new).updatedAt } := by
  unfold savedDoctor
  by_cases h : new = old
  · simp only [h, if_true]
  · simp only [h, if_false]

/-- C15, as the code has it: when the update is accepted (status 200), each of
the eight updatable fields of the stored profile is the value of the body
where the body has the field (trimmed, for specialization and licenseNumber)
and the prior value otherwise, and every further field but `updatedAt` keeps
its value; when the update is not accepted the store is unchanged. -/
theorem update_profile_fields (now : Nat) (store : Store) (b : DoctorUpdate) (req : Request)
    (user : User) (d : Doctor)
    (hu : req.user = some user) (hd : store.findDoctorByUserId user._id = some d) :
    ((updateProfile now store b req).res.status = 200 →
      ∃ saved, (updateProfile now store b req).res.data = .doctor saved ∧
        (updateProfile now store b req).store.findDoctorByUserId user._id = some saved ∧
        saved.specialization = (b.specialization.map jsTrim).getD d.specialization ∧
        saved.licenseNumber = (b.licenseNumber.map jsTrim).getD d.licenseNumber ∧
        saved.qualification = b.qualification.getD d.qualification ∧
        saved.experience = b.experience.getD d.experience ∧
        saved.consultationFee = b.consultationFee.getD d.consultationFee ∧
        saved.availableSlots = b.availableSlots.getD d.availableSlots ∧
        saved.bio = b.bio.getD d.bio ∧
        saved.services = b.services.getD d.services ∧
        saved._id = d._id ∧ saved.userId = d.userId ∧ saved.rating = d.rating ∧
        saved.totalReviews = d.totalReviews ∧ saved.isVerified = d.isVerified ∧
        saved.verificationDocuments = d.verificationDocuments ∧
        saved.createdAt = d.createdAt) ∧
    ((updateProfile now store b req).res.status ≠ 200 →
      (updateProfile now store b req).store = store) := by
  have hdu : d.userId = user._id := by
    have := (find_some_mem _ _ _ hd).2
    simpa using this
  unfold updateProfile
  rw [hu]
  dsimp only
  rw [hd]
  dsimp only
  cases hsave : store.saveDoctor now d (applyUpdate d b) with
  | error e => exact ⟨fun h => by cases e <;> simp [signupCatch, fail] at h, fun _ => rfl⟩
  | ok p =>
    obtain ⟨saved, store1⟩ := p
    dsimp only
    refine ⟨fun _ => ?_, fun h => absurd rfl h⟩
    unfold Store.saveDoctor at hsave
    split_ifs at hsave
    simp only [Except.ok.injEq, Prod.mk.injEq] at hsave
    obtain ⟨hs, hst⟩ := hsave
    have hsu : saved.userId = user._id := by
      rw [← hs, savedDoctor_eq]; exact hdu
    refine ⟨saved, rfl, ?_, ?_⟩
    · rw [← hst]
      have := find_after_save store.doctors d (savedDoctor now d (applyUpdate d b)) user._id
        hd (by rw [hs]; exact hsu)
      rw [hs] at this ⊢
      exact this
    · rw [← hs, savedDoctor_eq]
      exact ⟨rfl, rfl, rfl, rfl, rfl, rfl, rfl, rfl, rfl, rfl, rfl, rfl, rfl, rfl, rfl⟩

/-- C15 fails as stated: the body `{experience: -1}` has the field experience,
the update is answered 400 'Experience cannot be negative' and the stored
experience stays 5; and the body `{specialization: ' Neurology '}` is answered
200 with the specialization stored as 'Neurology', without the blanks, and
`updatedAt` moved to the clock. -/
theorem update_profile_rejected :
    (putProfileRoute clinicLib 20 clinicStore (requestWith (some "Bearer jwt-10"))
      { emptyUpdate with specialization := some " Neurology " }).res.status = 200 ∧
    (putProfileRoute clinicLib 20 clinicStore (requestWith (some "Bearer jwt-10"))
      { emptyUpdate with specialization := some " Neurology " }).store.doctors =
        [{ sampleCaraProfile with specialization := "Neurology", updatedAt := 20 }] ∧
    (putProfileRoute clinicLib 20 clinicStore (requestWith (some "Bearer jwt-10"))
      { emptyUpdate with experience := some (-1) }).res =
        fail 400 "Experience cannot be negative" ∧
    (putProfileRoute clinicLib 20 clinicStore (requestWith (some "Bearer jwt-10"))
      { emptyUpdate with experience := some (-1) }).store.doctors.map
        (fun x => x.experience) = [5] ∧
    ¬ (∀ (d : Doctor) (b : DoctorUpdate) (v : Int), b.experience = some v →
        d ∈ clinicStore.doctors →
        ∃ x ∈ (putProfileRoute clinicLib 20 clinicStore (requestWith (some "Bearer jwt-10"))
          b).store.doctors, x._id = d._id ∧ x.experience = v) := by
  refine ⟨by decide, by decide, by decide, by decide, ?_⟩
  intro h
  obtain ⟨x, hx, _, he⟩ := h sampleCaraProfile { emptyUpdate with experience := some (-1) } (-1)
    rfl (by decide)
  have hst : (putProfileRoute clinicLib 20 clinicStore (requestWith (some "Bearer jwt-10"))
      { emptyUpdate with experience := some (-1) }).store.doctors = [sampleCaraProfile] := by
    decide
  rw [hst] at hx
  simp only [List.mem_singleton] at hx
  subst hx
  exact absurd he (by decide)

theorem update_profile_fields_witness :
    (updateProfile 20 clinicStore { emptyUpdate with bio := some "New bio" }
      { requestWith none with user := some sampleCara }).res.status = 200 ∧
    (updateProfile 20 clinicStore { emptyUpdate with bio := some "New bio" }
      { requestWith none with user := some sampleCara }).store.doctors =
        [{ sampleCaraProfile with bio := "New bio", updatedAt := 20 }] ∧
    ∃ saved, (updateProfile 20 clinicStore { emptyUpdate with bio := some "New bio" }
        { requestWith none with user := some sampleCara }).res.data = .doctor saved ∧
      saved.bio = "New bio" ∧ saved.experience = sampleCaraProfile.experience :=
  have h := (update_profile_fields 20 clinicStore { emptyUpdate with bio := some "New bio" }
    { requestWith none with user := some sampleCara } sampleCara sampleCaraProfile rfl
    (by decide)).1 (by decide)
  ⟨by decide, by decide,
    h.choose, h.choose_spec.1, h.choose_spec.2.2.2.2.2.2.2.2.1, h.choose_spec.2.2.2.2.2.1⟩

/-! ## Doctor directory -/

theorem doctorBefore_total (a b : Doctor) : doctorBefore a b ∨ doctorBefore b a := by
  unfold doctorBefore
  rcases lt_trichotomy a.rating b.rating with h | h | h
  · exact Or.inr (Or.inl h)
  · rcases le_total a.totalReviews b.totalReviews with h2 | h2
    · exact Or.inr (Or.inr ⟨h.symm, h2⟩)
    · exact Or.inl (Or.inr ⟨h, h2⟩)
  · exact Or.inl (Or.inl h)

theorem doctorBefore_trans (a b c : Doctor) (h1 : doctorBefore a b) (h2 : doctorBefore b c) :
    doctorBefore a c := by
  unfold doctorBefore at *
  rcases h1 with h1 | ⟨e1, r1⟩ <;> rcases h2 with h2 | ⟨e2, r2⟩
  · exact Or.inl (lt_trans h2 h1)
  · exact Or.inl (by rw [← e2]; exact h1)
  · exact Or.inl (by rw [e1]; exact h2)
  · exact Or.inr ⟨e1.trans e2, le_trans r2 r1⟩

theorem sortedMatching_sorted (store : Store) (p : Doctor → Bool) :
    (sortedMatching store p).Sorted doctorBefore := by
  haveI : IsTotal Doctor doctorBefore := ⟨doctorBefore_total⟩
  haveI : IsTrans Doctor doctorBefore := ⟨doctorBefore_trans⟩
  exact List.sorted_insertionSort doctorBefore _

theorem sortedMatching_perm (store : Store) (p : Doctor → Bool) :
    (sortedMatching store p).Perm (store.doctors.filter p) :=
  List.perm_insertionSort doctorBefore _

theorem sortedMatching_length (store : Store) (p : Doctor → Bool) :
    (sortedMatching store p).length = (store.doctors.filter p).length :=
  List.length_insertionSort doctorBefore _

theorem populate_doctor (store : Store) (l : List Doctor) :
    (l.map store.populate).map (fun x => x.doctor) = l := by
  induction l with
  | nil => rfl
  | cons a l ih => simp only [List.map_cons, ih]; rfl

/-- The first `k` chunks of length `n` of a list make up its first `k * n`
elements. -/
theorem chunks_take {α : Type} (l : List α) (n k : Nat) :
    (List.range k).flatMap (fun i => (l.drop (i * n)).take n) = l.take (k * n) := by
  induction k with
  | zero => simp
  | succ k ih =>
    rw [List.range_succ, List.flatMap_append, ih]
    simp only [List.flatMap_cons, List.flatMap_nil, List.append_nil]
    rw [Nat.succ_mul, List.take_add]

theorem ceilDiv_pos (total : Nat) (l : Nat) (hl : 1 ≤ l) :
    ceilDiv total (l : Int) = some (((total + l - 1) / l : Nat) : Int) := by
  unfold ceilDiv
  have h0 : ¬ (l : Int) = 0 := by omega
  have h1 : (0 : Int) < l := by omega
  rw [if_neg h0, if_pos h1]
  have : (total : Int) + (l : Int) - 1 = ((total + l - 1 : Nat) : Int) := by omega
  rw [this]
  norm_cast

theorem ceil_spec (total l : Nat) (hl : 1 ≤ l) :
    total ≤ (total + l - 1) / l * l ∧
      (∀ k : Nat, total ≤ k * l → (total + l - 1) / l ≤ k) ∧
      (total = 0 → (total + l - 1) / l = 0) := by
  have hpos : 0 < l := hl
  refine ⟨?_, ?_, ?_⟩
  · by_contra hlt
    have hlt : (total + l - 1) / l * l < total := Nat.lt_of_not_le hlt
    have h2 : ((total + l - 1) / l + 1) * l ≤ total + l - 1 := by
      rw [Nat.succ_mul]; omega
    have h3 := (Nat.le_div_iff_mul_le hpos).2 h2
    omega
  · intro k hk
    have : (total + l - 1) / l < k + 1 := by
      rw [Nat.div_lt_iff_lt_mul hpos, Nat.succ_mul]
      omega
    omega
  · intro h0
    subst h0
    rw [Nat.div_eq_zero_iff hpos]
    omega

/-- What the directory handler answers when the filter compiles, page and
limit are integers and the skip is not negative. -/
theorem getDoctors_ok (rx : String → Option (String → Bool)) (store : Store) (q : DoctorQuery)
    (m : Doctor → Bool) (p l : Int)
    (hm : (buildFilter q).compile rx = some m) (hp : queryPage q = some p)
    (hl : queryLimit q = some l) (hs : ¬ (p - 1) * l < 0) :
    (getDoctors rx store q).res =
      { status := 200, success := true, message := none, error := none,
        data := .doctors
          ((skipLimit ((p - 1) * l) l (sortedMatching store m)).map store.populate)
          { page := some p, limit := some l, total := (store.doctors.filter m).length,
            pages := ceilDiv (store.doctors.filter m).length l } } := by
  unfold getDoctors
  rw [hm, hp, hl]
  dsimp only
  rw [if_neg hs]

/-- A 200 answer of the directory handler comes from a filter that compiles
and from integers for page and limit with a skip that is not negative. -/
theorem getDoctors_inv (rx : String → Option (String → Bool)) (store : Store) (q : DoctorQuery)
    (h : (getDoctors rx store q).res.status = 200) :
    ∃ m p l, (buildFilter q).compile rx = some m ∧ queryPage q = some p ∧
      queryLimit q = some l ∧ ¬ (p - 1) * l < 0 := by
  unfold getDoctors at h
  cases hm : (buildFilter q).compile rx with
  | none => rw [hm] at h; simp [serverError] at h
  | some m =>
    rw [hm] at h
    cases hp : queryPage q with
    | none => rw [hp] at h; simp [serverError] at h
    | some p =>
      cases hl : queryLimit q with
      | none => rw [hp, hl] at h; simp [serverError] at h
      | some l =>
        rw [hp, hl] at h
        dsimp only at h
        by_cases hs : (p - 1) * l < 0
        · rw [if_pos hs] at h; simp [serverError] at h
        · exact ⟨m, p, l, rfl, rfl, rfl, hs⟩

/-- C16: when the page size parses to an integer `l >= 1` and the directory
handler answers 200, `pagination.total` is the number of stored doctors that
match the filter and `pagination.pages` is the least natural number `n` with
`n * l >= total`, which is 0 when total is 0; an absent `limit` is 10. -/
theorem pagination_pages (rx : String → Option (String → Bool)) (store : Store)
    (q : DoctorQuery) (l : Int) (hl : queryLimit q = some l) (h1 : 1 ≤ l)
    (hok : (getDoctors rx store q).res.status = 200) :
    (∃ ds pg m, (getDoctors rx store q).res.data = .doctors ds pg ∧
      (buildFilter q).compile rx = some m ∧
      pg.total = (store.doctors.filter m).length ∧
      pg.limit = some l ∧
      ∃ n : Nat, pg.pages = some (n : Int) ∧ pg.total ≤ n * l.toNat ∧
        (∀ k : Nat, pg.total ≤ k * l.toNat → n ≤ k) ∧ (pg.total = 0 → n = 0)) ∧
    ∀ q2 : DoctorQuery, q2.limit = none → queryLimit q2 = some 10 := by
  refine ⟨?_, fun q2 h => by simp [queryLimit, h]⟩
  obtain ⟨m, p, l2, hm, hp, hl2, hs⟩ := getDoctors_inv rx store q hok
  rw [hl] at hl2
  cases hl2
  have hres := getDoctors_ok rx store q m p l hm hp hl hs
  obtain ⟨l', rfl⟩ := Int.eq_ofNat_of_zero_le (by omega : (0 : Int) ≤ l)
  have hl' : 1 ≤ l' := by omega
  refine ⟨_, _, m, by rw [hres], hm, rfl, rfl, ((store.doctors.filter m).length + l' - 1) / l',
    ceilDiv_pos _ _ hl', ?_⟩
  simp only [Int.toNat_ofNat]
  exact ceil_spec _ _ hl'

/-- C17: when `minRating` is a non-empty string that parses to the number `m`
and the directory handler answers 200, every doctor in the result has rating
at least `m`, and `pagination.total` counts the stored doctors with rating at
least `m` that satisfy the rest of the filter. -/
theorem min_rating_filter (rx : String → Option (String → Bool)) (store : Store)
    (q : DoctorQuery) (s : String) (m : Rat)
    (hs : q.minRating = some s) (hne : s ≠ "") (hm : parseFloat s = .fin m)
    (hok : (getDoctors rx store q).res.status = 200) :
    ∃ ds pg other, (getDoctors rx store q).res.data = .doctors ds pg ∧
      ({ buildFilter q with rating := none } : DoctorFilter).compile rx = some other ∧
      (∀ x ∈ ds, m ≤ x.doctor.rating) ∧
      pg.total =
        (store.doctors.filter (fun d => decide (m ≤ d.rating) && other d)).length := by
  obtain ⟨m0, p, l, hcomp, hp, hl, hsk⟩ := getDoctors_inv rx store q hok
  have hres := getDoctors_ok rx store q m0 p l hcomp hp hl hsk
  have hf : (buildFilter q).rating = some (.fin m) := by
    simp [buildFilter, hs, hne, hm]
  have key : ∃ other, ({ buildFilter q with rating := none } : DoctorFilter).compile rx =
      some other ∧ ∀ d, m0 d = (decide (m ≤ d.rating) && other d) := by
    unfold DoctorFilter.compile at hcomp ⊢
    cases hsp : (buildFilter q).specialization with
    | none =>
      rw [hsp] at hcomp
      simp only [Option.some.injEq] at hcomp
      refine ⟨_, rfl, fun d => ?_⟩
      rw [← hcomp]
      simp [DoctorFilter.plain, hf, ratingAtLeast]
    | some pat =>
      rw [hsp] at hcomp
      dsimp only at hcomp ⊢
      cases hrx : rx pat with
      | none => rw [hrx] at hcomp; simp at hcomp
      | some found =>
        rw [hrx] at hcomp
        simp only [Option.map_some', Option.some.injEq] at hcomp
        refine ⟨_, rfl, fun d => ?_⟩
        rw [← hcomp]
        simp only [DoctorFilter.plain, hf, ratingAtLeast]
        cases found d.specialization <;> cases decide (m ≤ d.rating) <;> simp
  obtain ⟨other, hother, hm0⟩ := key
  have hfun : m0 = fun d => decide (m ≤ d.rating) && other d := funext hm0
  refine ⟨_, _, other, by rw [hres], hother, ?_, by rw [hfun]⟩
  intro x hx
  rw [List.mem_map] at hx
  obtain ⟨d, hd, rfl⟩ := hx
  have hd1 : d ∈ sortedMatching store m0 := by
    unfold skipLimit at hd
    split_ifs at hd
    · exact List.mem_of_mem_drop hd
    · exact List.mem_of_mem_drop (List.mem_of_mem_take hd)
  have hd2 : d ∈ store.doctors.filter m0 := (sortedMatching_perm store m0).subset hd1
  have hd3 := (List.mem_filter.1 hd2).2
  rw [hm0 d] at hd3
  simp only [Bool.and_eq_true, decide_eq_true_eq] at hd3
  exact hd3.1

/-- C19: when the filter compiles and page `p >= 1` and page size `l >= 1` are
integers, the directory handler answers 200 and its `doctors` array is the
segment at offset `(p - 1) * l` of length at most `l` of the matching doctors
sorted by rating descending, then review count descending. The array has at
most `l` elements and is sorted, and the segments of the pages 1 to
`pagination.pages` put one after the other are the whole sorted list. Absent
`page` and `limit` are 1 and 10. -/
theorem directory_page (rx : String → Option (String → Bool)) (store : Store)
    (q : DoctorQuery) (m : Doctor → Bool) (p l : Int)
    (hm : (buildFilter q).compile rx = some m) (hp : queryPage q = some p)
    (hl : queryLimit q = some l) (h1 : 1 ≤ p) (h2 : 1 ≤ l) :
    (∃ ds pg, (getDoctors rx store q).res.status = 200 ∧
      (getDoctors rx store q).res.data = .doctors ds pg ∧
      ds.map (fun x => x.doctor) =
        ((sortedMatching store m).drop ((p.toNat - 1) * l.toNat)).take l.toNat ∧
      (sortedMatching store m).Sorted doctorBefore ∧
      (sortedMatching store m).Perm (store.doctors.filter m) ∧
      ds.length ≤ l.toNat ∧
      (ds.map (fun x => x.doctor)).Sorted doctorBefore ∧
      ∃ n : Nat, pg.pages = some (n : Int) ∧
        (List.range n).flatMap
            (fun i => ((sortedMatching store m).drop (i * l.toNat)).take l.toNat) =
          sortedMatching store m) ∧
    (∀ q2 : DoctorQuery, q2.page = none → queryPage q2 = some 1) ∧
    ∀ q2 : DoctorQuery, q2.limit = none → queryLimit q2 = some 10 := by
  refine ⟨?_, fun q2 h => by simp [queryPage, h], fun q2 h => by simp [queryLimit, h]⟩
  obtain ⟨p', rfl⟩ := Int.eq_ofNat_of_zero_le (by omega : (0 : Int) ≤ p)
  obtain ⟨l', rfl⟩ := Int.eq_ofNat_of_zero_le (by omega : (0 : Int) ≤ l)
  have hp' : 1 ≤ p' := by omega
  have hl' : 1 ≤ l' := by omega
  have hskip : ((p' : Int) - 1) * (l' : Int) = (((p' - 1) * l' : Nat) : Int) := by
    have : (p' : Int) - 1 = ((p' - 1 : Nat) : Int) := by omega
    rw [this]; norm_cast
  have hs : ¬ ((p' : Int) - 1) * (l' : Int) < 0 := by
    rw [hskip]; omega
  have hres := getDoctors_ok rx store q m p' l' hm hp hl hs
  have hseg : skipLimit (((p' : Int) - 1) * (l' : Int)) (l' : Int) (sortedMatching store m) =
      ((sortedMatching store m).drop ((p' - 1) * l')).take l' := by
    unfold skipLimit
    rw [if_neg (by omega), hskip]
    simp only [Int.toNat_ofNat, Int.natAbs_ofNat]
  have hsorted := sortedMatching_sorted store m
  have hsub : (((sortedMatching store m).drop ((p' - 1) * l')).take l').Sublist
      (sortedMatching store m) :=
    (List.take_sublist _ _).trans (List.drop_sublist _ _)
  refine ⟨_, _, by rw [hres], by rw [hres], ?_, hsorted, sortedMatching_perm store m, ?_, ?_,
    ((store.doctors.filter m).length + l' - 1) / l', ceilDiv_pos _ _ hl', ?_⟩
  · rw [populate_doctor, hseg]; simp only [Int.toNat_ofNat]
  · rw [List.length_map, hseg]
    simp only [Int.toNat_ofNat]
    exact List.length_take_le _ _
  · rw [populate_doctor, hseg]
    exact List.Pairwise.sublist hsub hsorted
  · simp only [Int.toNat_ofNat]
    rw [chunks_take]
    apply List.take_of_length_le
    rw [sortedMatching_length]
    exact (ceil_spec _ _ hl').1

/-! ## Signup under a concurrent write -/

theorem signupRaced_same (lib : Lib) (now : Nat) (uid did : ObjectId) (store : Store)
    (body : Body) :
    signupRaced lib now uid did store store body = signup lib now uid did store body := rfl

/-- The `catch` of signup answers a duplicate-key error of any index with 500. -/
theorem signupCatch_duplicateKey (index : String) :
    (signupCatch (.duplicateKey index)).status = 500 := rfl

/-- C18: of two signups with the email 'eve@x.org' that both looked the email up
in the empty store, the second passes the handler's checks, its `User.create`
is rejected by the unique index on email, and the handler answers 500
'Internal server error', where the specification has 409. -/
theorem signup_race_500 :
    emptyStore.findUserByEmail (toLowerCase "Eve@x.org") = none ∧
    storeAfterEve.createUser sampleLib 11 22
        (signupDocument (signupBody "Eve@x.org" "pw-two" "Eve" "user") "Eve@x.org" "user") =
      .error (.duplicateKey "email_1") ∧
    racedSignup.res.status = 500 ∧
    racedSignup.res.message = some "Internal server error" ∧
    racedSignup.res.status ≠ 409 ∧
    (signup sampleLib 11 22 23 storeAfterEve
      (signupBody "Eve@x.org" "pw-two" "Eve" "user")).res.status = 409 :=
  ⟨by decide, rfl, by decide, by decide, by decide, by decide⟩

/-! ## The specialization filter -/

/-- C20: with the sample engine, the query '.' returns the doctor whose
specialization is 'Cardiology', which contains no '.'; the query 'A+E' does
not return the doctor whose specialization is 'A+E'; and the query '(' is
answered 500. A query without operators, 'RDIO', is a substring search. -/
theorem specialization_is_regex :
    (getDoctors regexLite directoryStore (specializationQuery ".")).res.data =
      .doctors (([sampleDermaProfile, sampleCaraProfile, sampleEmergencyProfile]).map
        directoryStore.populate)
        { page := some 1, limit := some 10, total := 3, pages := some 1 } ∧
    containsSubstring (toLowerCase "Cardiology") (toLowerCase ".") = false ∧
    (getDoctors regexLite directoryStore (specializationQuery "A+E")).res.data =
      .doctors [] { page := some 1, limit := some 10, total := 0, pages := some 0 } ∧
    containsSubstring (toLowerCase "A+E") (toLowerCase "A+E") = true ∧
    (getDoctors regexLite directoryStore (specializationQuery "(")).res.status = 500 ∧
    (getDoctors regexLite directoryStore (specializationQuery "*")).res.status = 500 ∧
    (getDoctors regexLite directoryStore (specializationQuery "RDIO")).res.data =
      .doctors [directoryStore.populate sampleCaraProfile]
        { page := some 1, limit := some 10, total := 1, pages := some 1 } := by
  decide

/-! ## Instances on the directory -/

theorem pagination_pages_witness :
    queryLimit (pageQuery none none (some "2")) = some 2 ∧
    (getDoctors regexLite directoryStore (pageQuery none none (some "2"))).res.status = 200 ∧
    ∃ ds pg, (getDoctors regexLite directoryStore (pageQuery none none (some "2"))).res.data =
        .doctors ds pg ∧ pg.total = 3 ∧ pg.pages = some 2 := by
  obtain ⟨ds, pg, m, hd, hm, ht, _, n, hn, h1, h2, _⟩ :=
    (pagination_pages regexLite directoryStore (pageQuery none none (some "2")) 2
      (by decide) (by decide) (by decide)).1
  refine ⟨by decide, by decide, ds, pg, hd, ?_, ?_⟩
  · have hm2 : m = fun d => (buildFilter (pageQuery none none (some "2"))).plain d := by
      have : (buildFilter (pageQuery none none (some "2"))).compile regexLite =
          some (fun d => (buildFilter (pageQuery none none (some "2"))).plain d) := rfl
      rw [this] at hm
      exact (Option.some.inj hm).symm
    rw [ht, hm2]
    decide
  · have hd2 : (getDoctors regexLite directoryStore (pageQuery none none (some "2"))).res.data =
        .doctors (([sampleDermaProfile, sampleCaraProfile]).map directoryStore.populate)
          { page := some 1, limit := some 2, total := 3, pages := some 2 } := by decide
    rw [hd2] at hd
    injection hd with _ hpg
    rw [← hpg]

theorem min_rating_filter_witness :
    parseFloat "4" = .fin 4 ∧
    (buildFilter (pageQuery (some "0") none none)).rating = some (.fin 0) ∧
    (getDoctors regexLite directoryStore (pageQuery (some "4") none none)).res.status = 200 ∧
    ∃ ds pg other,
      (getDoctors regexLite directoryStore (pageQuery (some "4") none none)).res.data =
        .doctors ds pg ∧
      ({ buildFilter (pageQuery (some "4") none none) with rating := none } :
        DoctorFilter).compile regexLite = some other ∧
      (∀ x ∈ ds, ¬ x.doctor.rating < 4) ∧
      pg.total =
        (directoryStore.doctors.filter (fun d => decide ((4 : Rat) ≤ d.rating) && other d)).length := by
  obtain ⟨ds, pg, other, hd, ho, hr, ht⟩ :=
    min_rating_filter regexLite directoryStore (pageQuery (some "4") none none) "4" 4
      rfl (by decide) (by decide) (by decide)
  exact ⟨by decide, by decide, by decide, ds, pg, other, hd, ho,
    fun x hx => not_lt.2 (hr x hx), ht⟩

theorem directory_page_witness :
    (getDoctors regexLite directoryStore (pageQuery none (some "2") (some "2"))).res.status = 200 ∧
    ∃ ds pg,
      (getDoctors regexLite directoryStore (pageQuery none (some "2") (some "2"))).res.data =
        .doctors ds pg ∧
      ds.map (fun x => x.doctor) = [sampleEmergencyProfile] ∧
      ds.length ≤ 2 := by
  obtain ⟨ds, pg, hs, hd, hseg, _, _, hlen, _, _⟩ :=
    (directory_page regexLite directoryStore (pageQuery none (some "2") (some "2"))
      (fun d => (buildFilter (pageQuery none (some "2") (some "2"))).plain d) 2 2
      rfl (by decide) (by decide) (by decide) (by decide)).1
  refine ⟨hs, ds, pg, hd, ?_, hlen⟩
  rw [hseg]
  decide

/-! ## The practitioner profile in the login response -/

/-- Whether a login succeeds does not depend on the stored profiles. -/
theorem login_status_doctors (lib : Lib) (store : Store) (body : Body) (ds : List Doctor) :
    (login lib { store with doctors := ds } body).res.status =
      (login lib store body).res.status := by
  unfold login
  by_cases h0 : (!body.email.truthy || !body.password.truthy) = true
  · rw [if_pos h0, if_pos h0]
  · rw [if_neg h0, if_neg h0]
    cases body.email with
    | str email =>
      dsimp only
      cases store.users.find? (fun u => u.email == toLowerCase email) with
      | none => rfl
      | some u =>
        dsimp only
        by_cases ha : (!u.isActive) = true
        · rw [if_pos ha, if_pos ha]
        · rw [if_neg ha, if_neg ha]
          cases u.password with
          | none => rfl
          | some hash =>
            dsimp only
            by_cases hc : (!lib.comparePassword body.password hash) = true
            · rw [if_pos hc, if_pos hc]
            · rw [if_neg hc, if_neg hc]
              by_cases hd : u.userType = "doctor"
              · rw [if_pos hd, if_pos hd]
              · rw [if_neg hd, if_neg hd]
    | undefined => rfl
    | null => rfl
    | bool b => rfl
    | num n => rfl
    | obj => rfl

/-- C21: in every successful login the `doctorProfile` of the user object is
`null` when the role of the identity is not 'doctor', whatever profiles are
stored; for a doctor it is the projection `loginDoctorView` (id,
specialization, licenseNumber, qualification, experience, consultationFee,
rating, totalReviews, bio, isVerified) of the stored profile found by the
identity's id as `userId`, and `null` when there is none; and the login
succeeds whatever the stored profiles are. -/
theorem login_doctor_profile (lib : Lib) (store : Store) (body : Body)
    (h : (login lib store body).res.status = 200) :
    (∃ email u resp token, body.email = .str email ∧
      store.users.find? (fun x => x.email == toLowerCase email) = some u ∧
      (login lib store body).res.data = .auth resp token ∧
      (u.userType ≠ "doctor" → resp.doctorProfile = some none) ∧
      (u.userType = "doctor" →
        resp.doctorProfile =
          some ((store.doctors.find? (fun d => d.userId == u._id)).map loginDoctorView)) ∧
      (u.userType = "doctor" → (∀ d ∈ store.doctors, d.userId ≠ u._id) →
        resp.doctorProfile = some none)) ∧
    (∀ ds : List Doctor, (login lib { store with doctors := ds } body).res.status = 200) ∧
    ∀ d : Doctor, loginDoctorView d =
      { _id := d._id, specialization := d.specialization, licenseNumber := d.licenseNumber,
        qualification := d.qualification, experience := d.experience,
        consultationFee := d.consultationFee, availableSlots := none, rating := d.rating,
        totalReviews := d.totalReviews, bio := d.bio, services := none,
        isVerified := d.isVerified } := by
  refine ⟨?_, fun ds => by rw [login_status_doctors, h], fun _ => rfl⟩
  obtain ⟨email, u, he, hu, hr⟩ := login_ok_inv lib store body h
  refine ⟨email, u, _, _, he, hu, by rw [hr], ?_, ?_, ?_⟩
  · intro hd
    rw [if_neg hd]; rfl
  · intro hd
    rw [if_pos hd]; rfl
  · intro hd hnone
    rw [if_pos hd]
    have : store.findDoctorByUserId u._id = none := by
      unfold Store.findDoctorByUserId
      rw [List.find?_eq_none]
      intro d hdm
      simpa using hnone d hdm
    rw [this]; rfl

theorem login_doctor_profile_witness :
    (login sampleLib clinicStore (loginBody "cara@x.org" "secret")).res.status = 200 ∧
    (∃ resp token,
      (login sampleLib clinicStore (loginBody "cara@x.org" "secret")).res.data =
        .auth resp token ∧
      resp.doctorProfile = some (some (loginDoctorView sampleCaraProfile))) ∧
    (login sampleLib { clinicStore with doctors := [] }
      (loginBody "cara@x.org" "secret")).res.status = 200 := by
  have h := login_doctor_profile sampleLib clinicStore (loginBody "cara@x.org" "secret")
    (by decide)
  obtain ⟨email, u, resp, token, he, hu, hd, _, hdoc, _⟩ := h.1
  have hee : email = "cara@x.org" := (JsVal.str.inj he).symm
  subst hee
  have hu2 : clinicStore.users.find? (fun x => x.email == toLowerCase "cara@x.org") =
      some sampleCara := by decide
  rw [hu2] at hu
  have hus : u = sampleCara := (Option.some.inj hu).symm
  subst hus
  exact ⟨by decide, ⟨resp, token, hd, by rw [hdoc (by decide)]; decide⟩, h.2.1 []⟩

/-! ## What a profile update cannot change -/

/-- The handler of the profile update maps the stored profiles one by one,
keeps the fields outside the eight updatable ones, and keeps every profile
whose `userId` is not the id of `req.user`. -/
theorem updateProfile_frame (now : Nat) (store : Store) (b : DoctorUpdate) (req : Request)
    (hid : ∀ x ∈ store.doctors, ∀ y ∈ store.doctors, x._id = y._id → x = y) :
    ∃ f : Doctor → Doctor,
      (updateProfile now store b req).store.doctors = store.doctors.map f ∧
      (updateProfile now store b req).store.users = store.users ∧
      (∀ x ∈ store.doctors,
        (f x).rating = x.rating ∧ (f x).totalReviews = x.totalReviews ∧
        (f x).isVerified = x.isVerified ∧
        (f x).verificationDocuments = x.verificationDocuments ∧
        (f x).userId = x.userId ∧ (f x)._id = x._id) ∧
      (∀ x ∈ store.doctors, (∀ u, req.user = some u → x.userId ≠ u._id) → f x = x) := by
  have hidf : ∃ f : Doctor → Doctor, store.doctors = store.doctors.map f ∧
      store.users = store.users ∧
      (∀ x ∈ store.doctors,
        (f x).rating = x.rating ∧ (f x).totalReviews = x.totalReviews ∧
        (f x).isVerified = x.isVerified ∧
        (f x).verificationDocuments = x.verificationDocuments ∧
        (f x).userId = x.userId ∧ (f x)._id = x._id) ∧
      (∀ x ∈ store.doctors, (∀ u, req.user = some u → x.userId ≠ u._id) → f x = x) :=
    ⟨id, by simp, rfl, fun _ _ => ⟨rfl, rfl, rfl, rfl, rfl, rfl⟩, fun _ _ _ => rfl⟩
  unfold updateProfile
  cases hu : req.user with
  | none => simpa [hu] using hidf
  | some user =>
    dsimp only
    cases hd : store.findDoctorByUserId user._id with
    | none => simpa [hu] using hidf
    | some d =>
      dsimp only
      have hdm := find_some_mem _ _ _ hd
      have hdu : d.userId = user._id := by simpa using hdm.2
      cases hsave : store.saveDoctor now d (applyUpdate d b) with
      | error e => simpa [hu] using hidf
      | ok p =>
        obtain ⟨saved, store1⟩ := p
        dsimp only
        unfold Store.saveDoctor at hsave
        split_ifs at hsave
        simp only [Except.ok.injEq, Prod.mk.injEq] at hsave
        obtain ⟨_, hst⟩ := hsave
        refine ⟨fun x => if x._id == (applyUpdate d b)._id then
          savedDoctor now d (applyUpdate d b) else x, by rw [← hst], by rw [← hst], ?_, ?_⟩
        · intro x hx
          by_cases hxd : (x._id == (applyUpdate d b)._id) = true
          · have hxe : x = d := hid x hx d hdm.1 (by simpa [applyUpdate] using hxd)
            subst hxe
            simp only [hxd, if_true]
            rw [savedDoctor_eq]
            exact ⟨rfl, rfl, rfl, rfl, rfl, rfl⟩
          · simp only [hxd]
            exact ⟨rfl, rfl, rfl, rfl, rfl, rfl⟩
        · intro x hx hne
          by_cases hxd : (x._id == (applyUpdate d b)._id) = true
          · have hxe : x = d := hid x hx d hdm.1 (by simpa [applyUpdate] using hxd)
            subst hxe
            exact absurd hdu (hne user rfl)
          · simp only [hxd]
            rfl

/-- C22: for every request and every body, whatever other keys it carries,
`PUT /api/doctors/profile` maps the stored profiles one by one (ids being
unique in the collection): rating, totalReviews, isVerified,
verificationDocuments, userId and the id of every profile keep their values,
every profile whose `userId` is not the id of the authenticated identity is
left as it was, the identities are untouched, and the result does not depend
on the other keys of the body. -/
theorem put_profile_frame (lib : Lib) (now : Nat) (store : Store) (req : Request)
    (body : ProfileBody)
    (hid : ∀ x ∈ store.doctors, ∀ y ∈ store.doctors, x._id = y._id → x = y) :
    (∃ f : Doctor → Doctor,
      (putProfile lib now store req body).store.doctors = store.doctors.map f ∧
      (putProfile lib now store req body).store.users = store.users ∧
      (∀ x ∈ store.doctors,
        (f x).rating = x.rating ∧ (f x).totalReviews = x.totalReviews ∧
        (f x).isVerified = x.isVerified ∧
        (f x).verificationDocuments = x.verificationDocuments ∧
        (f x).userId = x.userId ∧ (f x)._id = x._id) ∧
      (∀ x ∈ store.doctors,
        (∀ u, (doctorOnly lib store req).req.user = some u → x.userId ≠ u._id) → f x = x)) ∧
    ∀ others2 : List (String × JsVal),
      putProfile lib now store req { body with others := others2 } =
        putProfile lib now store req body := by
  refine ⟨?_, fun _ => rfl⟩
  unfold putProfile putProfileRoute route
  cases hg : (doctorOnly lib store req).res with
  | some r =>
    exact ⟨id, by simp, rfl, fun _ _ => ⟨rfl, rfl, rfl, rfl, rfl, rfl⟩, fun _ _ _ => rfl⟩
  | none =>
    exact updateProfile_frame now store body.fields (doctorOnly lib store req).req hid

theorem put_profile_frame_witness :
    (∀ x ∈ directoryStore.doctors, ∀ y ∈ directoryStore.doctors, x._id = y._id → x = y) ∧
    (putProfile clinicLib 20 directoryStore (requestWith (some "Bearer jwt-10"))
      { fields := { emptyUpdate with bio := some "New bio" },
        others := [("rating", .num 5), ("isVerified", .bool true), ("userId", .num 13)] }
      ).store.doctors =
        [sampleEmergencyProfile, { sampleCaraProfile with bio := "New bio", updatedAt := 20 },
          sampleDermaProfile] ∧
    putProfile clinicLib 20 directoryStore (requestWith (some "Bearer jwt-10"))
        { fields := { emptyUpdate with bio := some "New bio" },
          others := [("rating", .num 5), ("isVerified", .bool true), ("userId", .num 13)] } =
      putProfile clinicLib 20 directoryStore (requestWith (some "Bearer jwt-10"))
        { fields := { emptyUpdate with bio := some "New bio" }, others := [] } :=
  ⟨by decide, by decide,
    (put_profile_frame clinicLib 20 directoryStore (requestWith (some "Bearer jwt-10"))
      { fields := { emptyUpdate with bio := some "New bio" }, others := [] }
      (by decide)).2 _⟩

/-! ## The verified-only flag -/

theorem buildFilter_unverified (q : DoctorQuery) (h : q.isVerified ≠ some "true") :
    buildFilter q = buildFilter { q with isVerified := none } := by
  unfold buildFilter
  simp [h]

/-- C23: the filter of `GET /api/doctors` has the condition `isVerified: true`
exactly when the query value `isVerified` is the string 'true'. With any other
value, or none, the handler does what it does without the parameter; with
'true' every returned doctor is verified and `pagination.total` counts the
verified doctors that pass the rest of the filter. -/
theorem verified_flag (rx : String → Option (String → Bool)) (store : Store)
    (q : DoctorQuery) :
    ((buildFilter q).isVerified = true ↔ q.isVerified = some "true") ∧
    (q.isVerified ≠ some "true" →
      getDoctors rx store q = getDoctors rx store { q with isVerified := none }) ∧
    (q.isVerified = some "true" → (getDoctors rx store q).res.status = 200 →
      ∃ ds pg other, (getDoctors rx store q).res.data = .doctors ds pg ∧
        ({ buildFilter q with isVerified := false } : DoctorFilter).compile rx = some other ∧
        (∀ x ∈ ds, x.doctor.isVerified = true) ∧
        pg.total = (store.doctors.filter (fun d => d.isVerified && other d)).length) := by
  refine ⟨by simp [buildFilter], ?_, ?_⟩
  · intro h
    unfold getDoctors
    rw [← buildFilter_unverified q h]
    rfl
  · intro hv hok
    obtain ⟨m0, p, l, hcomp, hp, hl, hsk⟩ := getDoctors_inv rx store q hok
    have hres := getDoctors_ok rx store q m0 p l hcomp hp hl hsk
    have hf : (buildFilter q).isVerified = true := by simp [buildFilter, hv]
    have key : ∃ other, ({ buildFilter q with isVerified := false } : DoctorFilter).compile rx =
        some other ∧ ∀ d, m0 d = (d.isVerified && other d) := by
      unfold DoctorFilter.compile at hcomp ⊢
      cases hsp : (buildFilter q).specialization with
      | none =>
        rw [hsp] at hcomp
        simp only [Option.some.injEq] at hcomp
        refine ⟨_, rfl, fun d => ?_⟩
        rw [← hcomp]
        simp only [DoctorFilter.plain, hf]
        cases d.isVerified <;> simp
      | some pat =>
        rw [hsp] at hcomp
        dsimp only at hcomp ⊢
        cases hrx : rx pat with
        | none => rw [hrx] at hcomp; simp at hcomp
        | some found =>
          rw [hrx] at hcomp
          simp only [Option.map_some', Option.some.injEq] at hcomp
          refine ⟨_, rfl, fun d => ?_⟩
          rw [← hcomp]
          simp only [DoctorFilter.plain, hf]
          cases found d.specialization <;> cases d.isVerified <;> simp
    obtain ⟨other, hother, hm0⟩ := key
    have hfun : m0 = fun d => d.isVerified && other d := funext hm0
    refine ⟨_, _, other, by rw [hres], hother, ?_, by rw [hfun]⟩
    intro x hx
    rw [List.mem_map] at hx
    obtain ⟨d, hd, rfl⟩ := hx
    have hd1 : d ∈ sortedMatching store m0 := by
      unfold skipLimit at hd
      split_ifs at hd
      · exact List.mem_of_mem_drop hd
      · exact List.mem_of_mem_drop (List.mem_of_mem_take hd)
    have hd2 : d ∈ store.doctors.filter m0 := (sortedMatching_perm store m0).subset hd1
    have hd3 := (List.mem_filter.1 hd2).2
    rw [hm0 d] at hd3
    simp only [Bool.and_eq_true] at hd3
    exact hd3.1

theorem verified_flag_witness :
    getDoctors regexLite mixedStore (verifiedQuery (some "false")) =
      getDoctors regexLite mixedStore (verifiedQuery none) ∧
    (getDoctors regexLite mixedStore (verifiedQuery (some "false"))).res.data =
      .doctors ([sampleCaraProfile, sampleNewProfile].map mixedStore.populate)
        { page := some 1, limit := some 10, total := 2, pages := some 1 } ∧
    (getDoctors regexLite mixedStore (verifiedQuery (some "1"))).res.data =
      (getDoctors regexLite mixedStore (verifiedQuery none)).res.data ∧
    (getDoctors regexLite mixedStore (verifiedQuery (some "TRUE"))).res.data =
      (getDoctors regexLite mixedStore (verifiedQuery none)).res.data ∧
    (getDoctors regexLite mixedStore (verifiedQuery (some "true"))).res.data =
      .doctors [mixedStore.populate sampleCaraProfile]
        { page := some 1, limit := some 10, total := 1, pages := some 1 } :=
  ⟨(verified_flag regexLite mixedStore (verifiedQuery (some "false"))).2.1 (by decide),
    by decide,
    by rw [(verified_flag regexLite mixedStore (verifiedQuery (some "1"))).2.1 (by decide)]; rfl,
    by rw [(verified_flag regexLite mixedStore (verifiedQuery (some "TRUE"))).2.1 (by decide)]; rfl,
    by decide⟩

/-! ## Token extraction -/

theorem splitSpace_ne_nil (cs : List Char) : splitSpace cs ≠ [] := by
  cases cs with
  | nil => simp [splitSpace]
  | cons c cs =>
    unfold splitSpace
    by_cases h : c = ' '
    · simp [h]
    · rw [if_neg h]
      cases splitSpace cs <;> simp

/-- The pieces of `splitSpace` contain no space, and joined by single spaces
they give back the input. -/
theorem splitSpace_spec (cs : List Char) :
    (∀ w ∈ splitSpace cs, ' ' ∉ w) ∧ [' '].intercalate (splitSpace cs) = cs := by
  induction cs with
  | nil => simp [splitSpace, List.intercalate]
  | cons c cs ih =>
    have hne := splitSpace_ne_nil cs
    unfold splitSpace
    by_cases h : c = ' '
    · rw [if_pos h]
      refine ⟨?_, ?_⟩
      · intro w hw
        rcases List.mem_cons.1 hw with hw | hw
        · rw [hw]; simp
        · exact ih.1 w hw
      · cases hs : splitSpace cs with
        | nil => exact absurd hs hne
        | cons w ws =>
          have ih2 := ih.2
          rw [hs] at ih2
          rw [h, ← ih2]
          simp [List.intercalate, List.intersperse]
    · rw [if_neg h]
      cases hs : splitSpace cs with
      | nil => exact absurd hs hne
      | cons w ws =>
        have ih1 := ih.1
        have ih2 := ih.2
        rw [hs] at ih1 ih2
        dsimp only
        refine ⟨?_, ?_⟩
        · intro v hv
          rcases List.mem_cons.1 hv with hv | hv
          · rw [hv]
            intro hmem
            rcases List.mem_cons.1 hmem with hm | hm
            · exact h hm.symm
            · exact ih1 w (List.mem_cons_self _ _) hm
          · exact ih1 v (List.mem_cons_of_mem _ hv)
        · rw [← ih2]
          cases ws <;> simp [List.intercalate, List.intersperse]

theorem tokenPresent_eq_some (x : Option String) (t : String) :
    tokenPresent x = some t ↔ x = some t ∧ t ≠ "" := by
  cases x with
  | none => simp [tokenPresent]
  | some s =>
    unfold tokenPresent
    dsimp only
    by_cases hs : s = ""
    · rw [if_pos hs]
      constructor
      · intro h; simp at h
      · rintro ⟨h1, h2⟩
        rw [Option.some.injEq] at h1
        exact absurd (h1 ▸ hs) h2
    · rw [if_neg hs]
      constructor
      · intro h
        rw [Option.some.injEq] at h
        exact ⟨by rw [h], h ▸ hs⟩
      · rintro ⟨h1, _⟩; exact h1

theorem extractToken_some (h : String) :
    extractToken (some h) =
      if startsWith h "Bearer" = true then (jsSplit h)[1]? else none := by
  unfold extractToken
  dsimp only
  by_cases hs : startsWith h "Bearer" = true
  · have hne : h ≠ "" := by
      intro he
      rw [he] at hs
      exact absurd hs (by decide)
    rw [if_pos ⟨hne, hs⟩, if_pos hs]
  · rw [if_neg (fun hc => hs hc.2), if_neg hs]

/-- C24: for a request with the `Authorization` header `h`, `protect` has a
token `t` exactly when `h` begins with "Bearer" and `t` is the second of the
pieces of `h` between single spaces and is not empty; the pieces contain no
space and joined by single spaces give `h`. With a token `t` the first call of
`protect` is `verifyToken t` and no other token is verified; without one
`protect` answers the no-token 401 and makes no call. So "Bearer", "Bearer ",
"Bearer  t" and "bearer t" have no token, and "Bearer t extra" and
"BearerX t" have the token "t". -/
theorem token_extraction (lib : Lib) (store : Store) (req : Request) (h : String)
    (hh : req.authorization = some h) :
    (∀ t, tokenPresent (extractToken req.authorization) = some t ↔
      (startsWith h "Bearer" = true ∧ (jsSplit h)[1]? = some t ∧ t ≠ "")) ∧
    ((∀ w ∈ splitSpace h.data, ' ' ∉ w) ∧
      [' '].intercalate (splitSpace h.data) = h.data ∧
      jsSplit h = (splitSpace h.data).map String.mk) ∧
    (∀ t, tokenPresent (extractToken req.authorization) = some t →
      (lib.verifyToken t = none → (protect lib store req).calls = [.verifyToken t]) ∧
      (∀ c, lib.verifyToken t = some c →
        (protect lib store req).calls = [.verifyToken t, .userFindById c.userId])) ∧
    (tokenPresent (extractToken req.authorization) = none →
      protect lib store req =
        { req := req, nextCalls := 0, calls := [],
          res := some (fail 401 "Not authorized to access this route. No token provided.") }) ∧
    tokenPresent (extractToken (some "Bearer")) = none ∧
    tokenPresent (extractToken (some "Bearer ")) = none ∧
    tokenPresent (extractToken (some "Bearer  t")) = none ∧
    tokenPresent (extractToken (some "bearer t")) = none ∧
    tokenPresent (extractToken (some "Bearer t extra")) = some "t" ∧
    tokenPresent (extractToken (some "BearerX t")) = some "t" := by
  refine ⟨?_, ⟨(splitSpace_spec h.data).1, (splitSpace_spec h.data).2, rfl⟩, ?_, ?_,
    by decide, by decide, by decide, by decide, by decide, by decide⟩
  · intro t
    rw [hh, tokenPresent_eq_some, extractToken_some]
    by_cases hs : startsWith h "Bearer" = true
    · rw [if_pos hs]
      exact ⟨fun ⟨a, b⟩ => ⟨hs, a, b⟩, fun ⟨_, a, b⟩ => ⟨a, b⟩⟩
    · rw [if_neg hs]
      exact ⟨fun ⟨a, _⟩ => by simp at a, fun ⟨a, _, _⟩ => absurd a hs⟩
  · intro t ht
    refine ⟨?_, ?_⟩
    · intro hv
      unfold protect
      rw [ht]
      dsimp only
      rw [hv]
    · intro c hv
      unfold protect
      rw [ht]
      dsimp only
      rw [hv]
      dsimp only
      cases store.findUserById c.userId with
      | none => rfl
      | some u =>
        dsimp only
        by_cases ha : (!u.isActive) = true
        · rw [if_pos ha]
        · rw [if_neg ha]
  · intro hn
    unfold protect
    rw [hn]

theorem token_extraction_witness :
    (protect sampleLib sampleStore (requestWith (some "Bearer jwt-7 extra"))).calls =
      [.verifyToken "jwt-7", .userFindById 7] ∧
    (protect sampleLib sampleStore (requestWith (some "BearerX jwt-7"))).nextCalls = 1 ∧
    (protect sampleLib sampleStore (requestWith (some "Bearer  jwt-7"))).res =
      some (fail 401 "Not authorized to access this route. No token provided.") :=
  have h1 := (token_extraction sampleLib sampleStore (requestWith (some "Bearer jwt-7 extra"))
    "Bearer jwt-7 extra" rfl).2.2.1 "jwt-7" (by decide)
  have h2 := (token_extraction sampleLib sampleStore (requestWith (some "Bearer  jwt-7"))
    "Bearer  jwt-7" rfl).2.2.2.1 (by decide)
  ⟨h1.2 { userId := 7, email := "ann@x.org", userType := "user" } (by decide), by decide,
    by rw [h2]⟩

end MindHaven
